import Mathlib

/-!
# BlitFramebufferExample: `gl_code.cpp`

A shallow embedding of `app/src/main/cpp/gl_code.cpp` and the properties of it
that are established here.

* C++ `int` is `Int` (arithmetic is taken without overflow), `/` and `%` are the
  truncating `Int.tdiv` and `Int.tmod`, a division checks its divisor.
* `float` is `F32`: IEEE 754 binary32 values with addition rounded to nearest,
  ties to even (infinities and NaN do not occur and are not modelled).
* The globals and the function-local statics of the translation unit are the
  fields of `State`.  Every OpenGL call is appended to `State.trace`; what the
  driver answers to a query is read from a `Driver`, indexed by the number of
  queries made so far (`State.tick`).
* Array accesses are checked: an access outside the array is a `Fault`.
-/

namespace GlCode

/-! ## Faults, integer operations, loops -/

/-- Ways in which the embedded code can leave defined behaviour. -/
inductive Fault
  | divByZero
  | outOfBounds
  | loopFuel
  deriving DecidableEq, Repr

/-- C++ `a / b` on `int`: truncating division, undefined for a zero divisor. -/
def cdiv (a b : Int) : Except Fault Int :=
  if b = 0 then .error .divByZero else .ok (a.tdiv b)

/-- Conversion of an `int` to `unsigned char` (reduction modulo 256). -/
def toUChar (v : Int) : Nat := (v % 256).toNat

/-- The loop `for (int i = start; i < bound; i += step) body(i)`, run for at most
`fuel` iterations; running out of fuel is reported as `Fault.loopFuel`. -/
def forLoop {σ : Type} (body : Int → σ → Except Fault σ) (bound step : Int) :
    Nat → Int → σ → Except Fault σ
  | 0, i, s => if i < bound then .error .loopFuel else .ok s
  | fuel + 1, i, s =>
    if i < bound then
      match body i s with
      | .ok s' => forLoop body bound step fuel (i + step) s'
      | .error f => .error f
    else .ok s

/-! ## The type `float` -/

/-- Number of binary digits of `n`, when `n < 2 ^ fuel`. -/
def bitLength : Nat → Nat → Nat
  | 0, _ => 0
  | fuel + 1, n => if n = 0 then 0 else bitLength fuel (n / 2) + 1

/-- A finite value of the C++ type `float` (IEEE 754 binary32), given by its
integer number of units of `2 ^ (-149)`: this is the spacing of the smallest
binary32 values, and every finite binary32 value is a multiple of it. -/
structure F32 where
  units : Int
  deriving DecidableEq, Repr

/-- The number a `float` stands for. -/
def F32.toRat (x : F32) : ℚ := (x.units : ℚ) / 2 ^ 149

/-- Rounding to nearest, ties to even: the binary32 magnitude, in units, that is
nearest to `num / den` units.  A magnitude below `2 ^ 24` units lies on the grid
of spacing 1, a magnitude of `b > 24` binary digits on the grid of spacing
`2 ^ (b - 24)` (24 significant bits).  Finite binary32 magnitudes are below
`2 ^ 278` units, so 512 units of fuel give the number of digits; overflow to
infinity is not modelled. -/
def roundUnits (num den : Nat) : Nat :=
  let n := num / den
  let b := bitLength 512 n
  let q := if b ≤ 24 then 1 else 2 ^ (b - 24)
  let lo := n / q
  let twice := 2 * ((n % q) * den + num % den)
  let whole := q * den
  if twice < whole then lo * q
  else if whole < twice then (lo + 1) * q
  else if lo % 2 = 0 then lo * q
  else (lo + 1) * q

/-- The `float` literal with the decimal value `p / q`: `0.001f` is `F32.lit 1 1000`. -/
def F32.lit (p q : Nat) : F32 := ⟨roundUnits (p * 2 ^ 149) q⟩

/-- Negation of a `float` value. -/
def F32.neg (a : F32) : F32 := ⟨-a.units⟩

/-- Addition of two `float` values: the exact sum, rounded. -/
def F32.add (a b : F32) : F32 :=
  if a.units + b.units < 0 then ⟨-(roundUnits (a.units + b.units).natAbs 1 : Nat)⟩
  else ⟨(roundUnits (a.units + b.units).natAbs 1 : Nat)⟩

/-! ## The pixel buffer of `createTexture` -/

/-- The local array `unsigned char buf[n]`: its declared length and, for every
byte offset, the values stored there so far, newest first (`[]` for a byte that
was never written). -/
structure Buf where
  size : Int
  cell : Nat → List Nat

/-- A freshly declared, uninitialised buffer of `n` bytes. -/
def Buf.fresh (n : Int) : Buf := ⟨n, fun _ => []⟩

/-- The assignment `buf[idx] = v`; a store outside `[0, size)` is a fault. -/
def Buf.store (b : Buf) (idx : Int) (v : Nat) : Except Fault Buf :=
  if 0 ≤ idx ∧ idx < b.size then
    .ok { b with cell := Function.update b.cell idx.toNat (v :: b.cell idx.toNat) }
  else .error .outOfBounds

/-- The bytes handed to `glTexImage2D`: the current value of every byte of the
buffer, `none` for a byte that was never written. -/
def Buf.bytes (b : Buf) : List (Option Nat) :=
  (List.range b.size.toNat).map (fun k => (b.cell k).head?)

/-- Body of the inner loop of `createTexture` (lines 133-134):
`int col = ((int (i/(3*r))) + (int (j/r)))%2;`
`buf[i+j*rowlen] = buf[i+1+j*rowlen] = buf[i+2+j*rowlen] = col * 255;` -/
def pixelBody (rowlen r i j : Int) (buf : Buf) : Except Fault Buf :=
  match cdiv i (3 * r) with
  | .error f => .error f
  | .ok a =>
    match cdiv j r with
    | .error f => .error f
    | .ok b =>
      let col := (a + b).tmod 2
      let v := toUChar (col * 255)
      match buf.store (i + 2 + j * rowlen) v with
      | .error f => .error f
      | .ok buf2 =>
        match buf2.store (i + 1 + j * rowlen) v with
        | .error f => .error f
        | .ok buf1 => buf1.store (i + j * rowlen) v

/-- The pixel loops of `createTexture` (lines 129-135): declares
`buf[width*3*height]` and runs `for (i=0; i<rowlen; i+=3) for (j=0; j<height; j++)`. -/
def fillPixels (width height r : Int) : Except Fault Buf :=
  let rowlen := width * 3
  forLoop
    (fun i buf => forLoop (fun j buf => pixelBody rowlen r i j buf) height 1 height.toNat 0 buf)
    rowlen 3 rowlen.toNat 0 (Buf.fresh (width * 3 * height))

/-! ## The OpenGL ES interface -/

/-! Values of the `GLES3/gl32.h` enumerants the program uses. -/

abbrev GL_FALSE : Int := 0
abbrev GL_TRUE : Int := 1
abbrev GL_TRIANGLES : Nat := 0x0004
abbrev GL_DEPTH_BUFFER_BIT : Nat := 0x0100
abbrev GL_COLOR_BUFFER_BIT : Nat := 0x4000
abbrev GL_TEXTURE_2D : Nat := 0x0DE1
abbrev GL_UNSIGNED_BYTE : Nat := 0x1401
abbrev GL_FLOAT : Nat := 0x1406
abbrev GL_RGB : Nat := 0x1907
abbrev GL_VENDOR : Nat := 0x1F00
abbrev GL_RENDERER : Nat := 0x1F01
abbrev GL_VERSION : Nat := 0x1F02
abbrev GL_EXTENSIONS : Nat := 0x1F03
abbrev GL_LINEAR : Nat := 0x2601
abbrev GL_TEXTURE_MAG_FILTER : Nat := 0x2800
abbrev GL_TEXTURE_MIN_FILTER : Nat := 0x2801
abbrev GL_TEXTURE_WRAP_S : Nat := 0x2802
abbrev GL_TEXTURE_WRAP_T : Nat := 0x2803
abbrev GL_REPEAT : Nat := 0x2901
abbrev GL_TEXTURE0 : Nat := 0x84C0
abbrev GL_FRAGMENT_SHADER : Nat := 0x8B30
abbrev GL_VERTEX_SHADER : Nat := 0x8B31
abbrev GL_LINK_STATUS : Nat := 0x8B82
abbrev GL_READ_FRAMEBUFFER : Nat := 0x8CA8
abbrev GL_DRAW_FRAMEBUFFER : Nat := 0x8CA9
abbrev GL_FRAMEBUFFER_COMPLETE : Nat := 0x8CD5
abbrev GL_FRAMEBUFFER_INCOMPLETE_ATTACHMENT : Nat := 0x8CD6
abbrev GL_COLOR_ATTACHMENT0 : Nat := 0x8CE0
abbrev GL_COLOR_ATTACHMENT1 : Nat := 0x8CE1
abbrev GL_FRAMEBUFFER : Nat := 0x8D40
abbrev GL_FRAMEBUFFER_DEFAULT_SAMPLES : Nat := 0x9313

/-- The shader source strings of lines 44-73. -/
inductive Source
  | kHeader
  | kQuadVS
  | kQuadFS
  deriving DecidableEq, Repr

/-- Severity of a diagnostic line: `LOGI` or `LOGE`. -/
inductive Level
  | info
  | error
  deriving DecidableEq, Repr

/-- One call made by the program: an OpenGL ES command with its arguments (and,
for a query, the answer of the driver), or a line written to the log. -/
inductive Cmd
  | glGetString (name : Nat)
  | glGetError (result : Nat)
  | glCreateShader (kind : Nat) (result : Nat)
  | glShaderSource (shader : Nat) (count : Int) (lines : List Source)
  | glCompileShader (shader : Nat)
  | glCreateProgram (result : Nat)
  | glAttachShader (program shader : Nat)
  | glLinkProgram (program : Nat)
  | glGetProgramiv (program pname : Nat) (result : Int)
  | glGetProgramInfoLog (program : Nat) (bufSize : Int)
  | glDeleteProgram (program : Nat)
  | glDeleteShader (shader : Nat)
  | glGenTextures (n : Int) (result : Nat)
  | glBindTexture (target texture : Nat)
  | glTexImage2D (target : Nat) (level : Int) (internalformat : Nat) (width height border : Int)
      (format kind : Nat) (pixels : List (Option Nat))
  | glTexParameteri (target pname param : Nat)
  | glTexParameterf (target pname param : Nat)
  | glGenFramebuffers (n : Int) (result : Nat)
  | glBindFramebuffer (target framebuffer : Nat)
  | glFramebufferTexture2D (target attachment textarget texture : Nat) (level : Int)
  | glCheckFramebufferStatus (target : Nat) (result : Nat)
  | glReadBuffer (src : Nat)
  | glDrawBuffers (n : Int) (bufs : List Nat)
  | glBlitFramebuffer (srcX0 srcY0 srcX1 srcY1 dstX0 dstY0 dstX1 dstY1 : Int) (mask filter : Nat)
  | glGetFramebufferParameteriv (target pname : Nat) (result : Int)
  | glViewport (x y width height : Int)
  | glScissor (x y width height : Int)
  | glClearColor (red green blue alpha : F32)
  | glClear (mask : Nat)
  | glActiveTexture (texture : Nat)
  | glUniform1i (location : Nat) (v0 : Int)
  | glUseProgram (program : Nat)
  | glVertexAttribPointer (index : Nat) (size : Int) (kind : Nat) (normalized : Bool)
      (stride : Int) (data : List F32)
  | glEnableVertexAttribArray (index : Nat)
  | glDrawArrays (mode : Nat) (first count : Int)
  | log (level : Level) (format : String)

/-- What the driver answers.  Each field gives, for the query with sequence
number `k`, the value the program receives: the handle returned by
`glCreateShader` and `glCreateProgram`, the value left in `status` by
`glGetProgramiv(program, GL_LINK_STATUS, &status)`, the name left in the
variable passed to `glGenTextures` and `glGenFramebuffers`, the result of
`glCheckFramebufferStatus`, the value left in `samples` by
`glGetFramebufferParameteriv`, and the error codes that successive `glGetError`
calls return before they return `GL_NO_ERROR`. -/
structure Driver where
  shaderName : Nat → Nat
  programName : Nat → Nat
  linkStatus : Nat → Int
  textureName : Nat → Nat
  framebufferName : Nat → Nat
  framebufferStatus : Nat → Nat
  samples : Nat → Int
  errors : Nat → List Nat

/-! ## Program state -/

/-- The globals of `gl_code.cpp` (`gProgram`, `tex`, `fb`, `aniTex[25]`, `fbr`,
`width`, `height`), the statics `time` of `blitTexture` and `grey` of
`renderFrame`, the number of driver queries made so far and the calls made so
far, oldest first. -/
structure State where
  gProgram : Nat
  tex : Nat
  fb : Nat
  aniTex : Nat → Nat
  fbr : Nat
  width : Int
  height : Int
  time : Int
  grey : F32
  tick : Nat
  trace : List Cmd

/-- State at program start: statics are zero-initialised, nothing was called. -/
def State.init : State :=
  { gProgram := 0, tex := 0, fb := 0, aniTex := fun _ => 0, fbr := 0, width := 0, height := 0,
    time := 0, grey := ⟨0⟩, tick := 0, trace := [] }

/-- Record one call. -/
def emit (c : Cmd) (s : State) : State := { s with trace := s.trace ++ [c] }

/-- Record several calls. -/
def emits (cs : List Cmd) (s : State) : State := { s with trace := s.trace ++ cs }

/-- `printGLString` (lines 32-35). -/
def printGLString (s : Nat) (st : State) : State :=
  emits [.glGetString s, .log .info "GL %s = %s\n"] st

/-- The calls of the loop of `checkGlError` (lines 38-41), given the codes the
driver has pending: every non-zero code is fetched and logged, the first zero
ends the loop. -/
def drainErrors : List Nat → List Cmd
  | [] => [.glGetError 0]
  | e :: es =>
    if e = 0 then [.glGetError 0]
    else .glGetError e :: .log .info "after %s() glError (0x%x)\n" :: drainErrors es

/-- `checkGlError` (lines 37-42). -/
def checkGlError (d : Driver) (s : State) : State :=
  emits (drainErrors (d.errors s.tick)) { s with tick := s.tick + 1 }

/-- `createProgram` (lines 79-123). -/
def createProgram (d : Driver) (s : State) : Nat × State :=
  let VS := d.shaderName s.tick
  let s := emit (.glCreateShader GL_VERTEX_SHADER VS) { s with tick := s.tick + 1 }
  let s := emit (.glShaderSource VS 2 [.kHeader, .kQuadVS]) s
  let s := emit (.glCompileShader VS) s
  let FS := d.shaderName s.tick
  let s := emit (.glCreateShader GL_FRAGMENT_SHADER FS) { s with tick := s.tick + 1 }
  let s := emit (.glShaderSource FS 2 [.kHeader, .kQuadFS]) s
  let s := emit (.glCompileShader FS) s
  let s := emit (.log .info "Compiled shaders") s
  let program := d.programName s.tick
  let s := emit (.glCreateProgram program) { s with tick := s.tick + 1 }
  let s := emit (.glAttachShader program VS) s
  let s := emit (.glAttachShader program FS) s
  let s := emit (.glLinkProgram program) s
  let status := d.linkStatus s.tick
  let s := emit (.glGetProgramiv program GL_LINK_STATUS status) { s with tick := s.tick + 1 }
  let ps : Nat × State :=
    if GL_FALSE = status then
      let s := emit (.glGetProgramInfoLog program 1024) s
      let s := emit (.log .error "Program linking failed:\n%s") s
      let s := emit (.glDeleteProgram program) s
      (0, s)
    else (program, s)
  let s := emit (.glDeleteShader VS) ps.2
  let s := emit (.glDeleteShader FS) s
  let s := emit (.log .info "Compiled program") s
  (ps.1, s)

/-- The variable a `GLuint &tex` parameter is bound to. -/
inductive TexRef
  | tex
  | aniTex (i : Nat)
  deriving DecidableEq, Repr

/-- Store through the reference. -/
def TexRef.set : TexRef → Nat → State → State
  | .tex, v, s => { s with tex := v }
  | .aniTex i, v, s => { s with aniTex := Function.update s.aniTex i v }

/-- Load through the reference. -/
def TexRef.get : TexRef → State → Nat
  | .tex, s => s.tex
  | .aniTex i, s => s.aniTex i

/-- `createTexture` (lines 128-145); `ref` is the reference parameter `tex`. -/
def createTexture (d : Driver) (ref : TexRef) (width height r : Int) (s : State) :
    Except Fault State :=
  match fillPixels width height r with
  | .error f => .error f
  | .ok buf =>
    let s := ref.set (d.textureName s.tick) { s with tick := s.tick + 1 }
    let s := emit (.glGenTextures 1 (ref.get s)) s
    let s := emit (.glBindTexture GL_TEXTURE_2D (ref.get s)) s
    let s := emit (.glTexImage2D GL_TEXTURE_2D 0 GL_RGB width height 0 GL_RGB GL_UNSIGNED_BYTE
      buf.bytes) s
    let s := emit (.glTexParameteri GL_TEXTURE_2D GL_TEXTURE_WRAP_S GL_REPEAT) s
    let s := emit (.glTexParameteri GL_TEXTURE_2D GL_TEXTURE_WRAP_T GL_REPEAT) s
    let s := emit (.glTexParameteri GL_TEXTURE_2D GL_TEXTURE_MIN_FILTER GL_LINEAR) s
    let s := emit (.glTexParameteri GL_TEXTURE_2D GL_TEXTURE_MAG_FILTER GL_LINEAR) s
    .ok (emit (.log .info "DEBUG C++ Texture created [%d]") s)

/-- `SetupFramebuffer` (lines 151-174). -/
def SetupFramebuffer (d : Driver) (tex : Nat) (_width _height : Int) (s : State) :
    Bool × State :=
  if s.fb = 0 then
    let s := { s with fb := d.framebufferName s.tick, tick := s.tick + 1 }
    let s := emit (.glGenFramebuffers 1 s.fb) s
    let s := emit (.glBindFramebuffer GL_DRAW_FRAMEBUFFER s.fb) s
    let s := emit (.glFramebufferTexture2D GL_DRAW_FRAMEBUFFER GL_COLOR_ATTACHMENT0
      GL_TEXTURE_2D tex 0) s
    let status := d.framebufferStatus s.tick
    let s := emit (.glCheckFramebufferStatus GL_DRAW_FRAMEBUFFER status)
      { s with tick := s.tick + 1 }
    let s := emit (.glBindFramebuffer GL_DRAW_FRAMEBUFFER 0) s
    if status ≠ GL_FRAMEBUFFER_COMPLETE then
      (false, emit (.log .error "Incomplete frame buffer object!") s)
    else
      (true, emit (.log .info "Created FBO %d for texture %d.") s)
  else (true, s)

/-- Texture width `tw` (line 176). -/
abbrev tw : Int := 240

/-- Texture height `th` (line 177). -/
abbrev th : Int := 240

/-- Lines 181-188 of `setupGraphics`: the four `printGLString` calls, the
assignments to `width` and `height`, and the log line. -/
def setupGraphicsEntry (w h : Int) (s : State) : State :=
  let s := printGLString GL_VERSION s
  let s := printGLString GL_VENDOR s
  let s := printGLString GL_RENDERER s
  let s := printGLString GL_EXTENSIONS s
  let s := { s with width := w, height := h }
  emit (.log .info "setupGraphics(%d, %d)") s

/-- Body of the loop in line 198: `createTexture(aniTex[i], tw, th, 3+i)`. -/
def aniTexBody (d : Driver) (i : Int) (s : State) : Except Fault State :=
  if 0 ≤ i ∧ i < 25 then createTexture d (.aniTex i.toNat) tw th (3 + i) s
  else .error .outOfBounds

/-- `setupGraphics` (lines 180-202). -/
def setupGraphics (d : Driver) (w h : Int) (s : State) : Except Fault (Bool × State) :=
  let s := setupGraphicsEntry w h s
  let ps := createProgram d s
  let s : State := { ps.2 with gProgram := ps.1 }
  if s.gProgram = 0 then
    pure (false, emit (.log .error "Could not create program.") s)
  else do
    let s := emit (.glViewport 0 0 w h) s
    let s := checkGlError d s
    let s ← createTexture d .tex tw th 6 s
    let s ← forLoop (aniTexBody d) 25 1 25 0 s
    pure (true, (SetupFramebuffer d s.tex tw th s).2)

/-- The array `gTriangleVertices` (lines 204-205). -/
def gTriangleVertices : List F32 :=
  [F32.lit 0 1, F32.lit 1 2, (F32.lit 1 2).neg, (F32.lit 1 2).neg, F32.lit 1 2, (F32.lit 1 2).neg]

/-- The array `gTriangleUVs` (lines 206-207). -/
def gTriangleUVs : List F32 :=
  [F32.lit 1 2, F32.lit 1 1, F32.lit 0 1, F32.lit 0 1, F32.lit 1 1, F32.lit 0 1]

/-- The array `attachment` (line 208). -/
def attachment : List Nat := [GL_COLOR_ATTACHMENT0]

abbrev kTexture0Uniform : Nat := 0
abbrev kVerticesArrayAttr : Nat := 0
abbrev kUVsArrayAttr : Nat := 1

/-- `blitTexture` (lines 210-233). -/
def blitTexture (d : Driver) (s : State) : Except Fault State :=
  let s := emit (.glBindFramebuffer GL_FRAMEBUFFER s.fb) s
  let s := checkGlError d s
  if 0 ≤ s.time ∧ s.time < 25 then
    let s := emit (.glFramebufferTexture2D GL_FRAMEBUFFER GL_COLOR_ATTACHMENT1 GL_TEXTURE_2D
      (s.aniTex s.time.toNat) 0) s
    let s := checkGlError d s
    let s := emit (.glReadBuffer GL_COLOR_ATTACHMENT1) s
    let s := checkGlError d s
    let s := emit (.glDrawBuffers 1 attachment) s
    let s := checkGlError d s
    let status := d.framebufferStatus s.tick
    let s := emit (.glCheckFramebufferStatus GL_FRAMEBUFFER status) { s with tick := s.tick + 1 }
    let s := if status ≠ GL_FRAMEBUFFER_COMPLETE then
      emit (.log .error "Incomplete frame buffer object!") s else s
    let s := emit (.glBlitFramebuffer 0 0 tw th 0 0 tw th GL_COLOR_BUFFER_BIT GL_LINEAR) s
    let samples := d.samples s.tick
    let s := emit (.glGetFramebufferParameteriv GL_READ_FRAMEBUFFER
      GL_FRAMEBUFFER_DEFAULT_SAMPLES samples) { s with tick := s.tick + 1 }
    let s := emit (.log .info "SAMPLES draw buffer %d") s
    let s := checkGlError d s
    .ok { s with time := (s.time + 1).tmod 25 }
  else .error .outOfBounds

/-- `renderFrame` (lines 235-276). -/
def renderFrame (d : Driver) (s : State) : Except Fault State :=
  let s := { s with grey := s.grey.add (F32.lit 1 1000) }
  let s := if (F32.lit 1 1).units < s.grey.units then { s with grey := F32.lit 0 1 } else s
  let s := emit (.glClearColor s.grey (F32.lit 0 1) (F32.lit 0 1) (F32.lit 1 1)) s
  do
    let s ← blitTexture d s
    let s := checkGlError d s
    let s := emit (.glBindFramebuffer GL_FRAMEBUFFER 0) s
    let s := emit (.glViewport 0 0 s.width s.height) s
    let s := emit (.glScissor 0 0 s.width s.height) s
    let s := checkGlError d s
    let s := emit (.glClear (GL_DEPTH_BUFFER_BIT ||| GL_COLOR_BUFFER_BIT)) s
    let s := checkGlError d s
    let s := emit (.glActiveTexture GL_TEXTURE0) s
    let s := emit (.glBindTexture GL_TEXTURE_2D s.tex) s
    let s := checkGlError d s
    let s := emit (.glTexParameterf GL_TEXTURE_2D GL_TEXTURE_MIN_FILTER GL_LINEAR) s
    let s := emit (.glTexParameterf GL_TEXTURE_2D GL_TEXTURE_MAG_FILTER GL_LINEAR) s
    let s := emit (.glUniform1i kTexture0Uniform 0) s
    let s := checkGlError d s
    let s := emit (.glUseProgram s.gProgram) s
    let s := checkGlError d s
    let s := emit (.glVertexAttribPointer kVerticesArrayAttr 2 GL_FLOAT false 0
      gTriangleVertices) s
    let s := checkGlError d s
    let s := emit (.glEnableVertexAttribArray kVerticesArrayAttr) s
    let s := emit (.glVertexAttribPointer kUVsArrayAttr 2 GL_FLOAT false 0 gTriangleUVs) s
    let s := checkGlError d s
    let s := emit (.glEnableVertexAttribArray kUVsArrayAttr) s
    let s := checkGlError d s
    let s := emit (.glDrawArrays GL_TRIANGLES 0 3) s
    pure (checkGlError d s)

/-- `Java_com_android_gl2jni_GL2JNILib_init` (lines 283-286): the result of
`setupGraphics` is dropped. -/
def Java_com_android_gl2jni_GL2JNILib_init (d : Driver) (width height : Int) (s : State) :
    Except Fault State :=
  do
    let r ← setupGraphics d width height s
    pure r.2

/-- `Java_com_android_gl2jni_GL2JNILib_step` (lines 288-291). -/
def Java_com_android_gl2jni_GL2JNILib_step (d : Driver) (s : State) : Except Fault State :=
  renderFrame d s

/-! ## Runs -/

/-- The first `n` calls of `renderFrame`, one after the other. -/
def frames (d : Driver) : Nat → State → Except Fault State
  | 0, s => .ok s
  | n + 1, s => frames d n s >>= renderFrame d

/-- A call of one of the functions that touch the render target. -/
inductive Call
  | setupGraphics (w h : Int)
  | SetupFramebuffer (tex : Nat) (width height : Int)
  | renderFrame

/-- Perform one call. -/
def Call.run (d : Driver) : Call → State → Except Fault State
  | .setupGraphics w h, s =>
    GlCode.setupGraphics d w h s >>= fun r => pure r.2
  | .SetupFramebuffer tex width height, s =>
    .ok (GlCode.SetupFramebuffer d tex width height s).2
  | .renderFrame, s => GlCode.renderFrame d s

/-- Perform a sequence of calls, first to last. -/
def runCalls (d : Driver) : List Call → State → Except Fault State
  | [], s => .ok s
  | c :: cs, s => c.run d s >>= runCalls d cs

/-! ## What a sequence of calls does to the GPU -/

/-- A GPU object, by kind and name. -/
inductive Obj
  | shader (name : Nat)
  | program (name : Nat)
  | texture (name : Nat)
  | framebuffer (name : Nat)
  deriving DecidableEq, Repr

/-- The object a call creates, if any. -/
def Cmd.creates : Cmd → List Obj
  | .glCreateShader _ r => [.shader r]
  | .glCreateProgram r => [.program r]
  | .glGenTextures _ r => [.texture r]
  | .glGenFramebuffers _ r => [.framebuffer r]
  | _ => []

/-- The objects created by a sequence of calls, in order. -/
def created (cs : List Cmd) : List Obj := cs.flatMap Cmd.creates

/-- Is the call a `glGenFramebuffers`? -/
def Cmd.isGenFramebuffers : Cmd → Bool
  | .glGenFramebuffers _ _ => true
  | _ => false

/-- Is the call a `glGenTextures`? -/
def Cmd.isGenTextures : Cmd → Bool
  | .glGenTextures _ _ => true
  | _ => false

/-- Is the call a `glFramebufferTexture2D`? -/
def Cmd.isAttach : Cmd → Bool
  | .glFramebufferTexture2D _ _ _ _ _ => true
  | _ => false

/-- Is the call a `glFramebufferTexture2D` on `GL_COLOR_ATTACHMENT0`? -/
def Cmd.isAttachColor0 : Cmd → Bool
  | .glFramebufferTexture2D _ a _ _ _ => a == GL_COLOR_ATTACHMENT0
  | _ => false

/-- Is the call a `glBlitFramebuffer`? -/
def Cmd.isBlit : Cmd → Bool
  | .glBlitFramebuffer _ _ _ _ _ _ _ _ _ _ => true
  | _ => false

/-- The red component a `glClearColor` call sets. -/
def Cmd.clearRed : Cmd → Option F32
  | .glClearColor r _ _ _ => some r
  | _ => none

/-- The values passed as red component to `glClearColor`, in order. -/
def clearReds (cs : List Cmd) : List F32 := cs.filterMap Cmd.clearRed

/-- The framebuffer bindings and the colour attachments of the framebuffer
objects, as far as `glBindFramebuffer` and `glFramebufferTexture2D` determine
them (OpenGL ES 3.2, section 9.2): `attached f a` is the name of the texture
attached to attachment point `a` of framebuffer object `f`, `0` for none. -/
structure Gpu where
  drawFramebuffer : Nat
  readFramebuffer : Nat
  attached : Nat → Nat → Nat

/-- No framebuffer object is bound and nothing is attached. -/
def Gpu.init : Gpu := ⟨0, 0, fun _ _ => 0⟩

/-- Effect of one call on the bindings and attachments.  `glFramebufferTexture2D`
attaches to the framebuffer object bound to its target and has no effect while
the default framebuffer `0` is bound there. -/
def Gpu.exec (g : Gpu) : Cmd → Gpu
  | .glBindFramebuffer target f =>
    if target = GL_FRAMEBUFFER then { g with drawFramebuffer := f, readFramebuffer := f }
    else if target = GL_DRAW_FRAMEBUFFER then { g with drawFramebuffer := f }
    else if target = GL_READ_FRAMEBUFFER then { g with readFramebuffer := f }
    else g
  | .glFramebufferTexture2D target a _ texture _ =>
    if target = GL_FRAMEBUFFER ∨ target = GL_DRAW_FRAMEBUFFER ∨ target = GL_READ_FRAMEBUFFER then
      let f := if target = GL_READ_FRAMEBUFFER then g.readFramebuffer else g.drawFramebuffer
      if f = 0 then g
      else { g with attached := fun f' a' => if f' = f ∧ a' = a then texture else g.attached f' a' }
    else g
  | _ => g

/-- Bindings and attachments after a sequence of calls. -/
def gpuAfter (cs : List Cmd) : Gpu := cs.foldl Gpu.exec Gpu.init

/-- The value of `GL_UNPACK_ALIGNMENT`: its initial value 4, since the program
never calls `glPixelStorei`. -/
abbrev unpackAlignment : Nat := 4

/-- The distance in bytes between the starts of two rows that `glTexImage2D`
reads for `GL_RGB`, `GL_UNSIGNED_BYTE` (OpenGL ES 3.2, section 8.4.2.1): the row
length `3 * width`, rounded up to a multiple of the unpack alignment. -/
def rowStride (width : Int) : Nat :=
  unpackAlignment * ((3 * width.toNat + (unpackAlignment - 1)) / unpackAlignment)

/-- The bytes `glTexImage2D` reads from client memory `mem` for a `width` by
`height` image, row by row: byte `k` of row `y` comes from offset
`y * rowStride width + k`, and is `none` when that offset holds no initialised
byte of `mem`. -/
def unpack (width height : Int) (mem : List (Option Nat)) : List (Option Nat) :=
  (List.range (3 * width.toNat * height.toNat)).map fun i =>
    mem.getD ((i / (3 * width.toNat)) * rowStride width + i % (3 * width.toNat)) none

/-- One texture image specification: the texture bound to `GL_TEXTURE_2D` at the
time, the width and height given, and the bytes read from client memory. -/
structure Upload where
  texture : Nat
  width : Int
  height : Int
  pixels : List (Option Nat)

/-- Track the texture bound to `GL_TEXTURE_2D` and collect the `glTexImage2D`
calls. -/
def uploadStep (st : Nat × List Upload) : Cmd → Nat × List Upload
  | .glBindTexture _ t => (t, st.2)
  | .glTexImage2D _ _ _ w h _ _ _ mem => (st.1, st.2 ++ [⟨st.1, w, h, unpack w h mem⟩])
  | _ => st

/-- The texture images specified by a sequence of calls, in order. -/
def uploads (cs : List Cmd) : List Upload := (cs.foldl uploadStep (0, [])).2

/-! ## Checkerboards -/

/-- The grey value of the pixel in column `x`, row `y` of a checkerboard with
square tiles of `r` by `r` pixels. -/
def checker (r x y : Nat) : Nat := if (x / r + y / r) % 2 = 1 then 255 else 0

/-- The grey value of the pixel in column `x`, row `y` as the specification
words it: tiles `3 * r` pixels wide and `r` pixels high. -/
def specChecker (r x y : Nat) : Nat := if (x / (3 * r) + y / r) % 2 = 1 then 255 else 0

/-- The RGB bytes of the `w` by `h` checkerboard with tile size `r`, row by row. -/
def checkerboard (w h r : Nat) : List (Option Nat) :=
  (List.range (3 * w * h)).map (fun k => some (checker r ((k % (3 * w)) / 3) (k / (3 * w))))

/-- The value of the static `grey` after `m` additions of `0.001f` to `0.0f`. -/
def greyAt (m : Nat) : F32 := (fun g => g.add (F32.lit 1 1000))^[m] (F32.lit 0 1)

/-- One addition of `c` units to `u` units, rounded. -/
def unitStep (c u : Nat) : Nat := roundUnits (u + c) 1

/-- The addition of `c` units to `g` units, the value after `i` additions, gives a
larger value that is not larger than `1.0f` and is within `1 / 100000` of
`(i + 1) / 1000`. -/
def stepOk (c i g : Nat) : Bool :=
  decide (g < unitStep c g) && decide (unitStep c g ≤ 2 ^ 149) &&
  decide (100 * (1000 * unitStep c g - (i + 1) * 2 ^ 149) ≤ 2 ^ 149) &&
  decide (100 * ((i + 1) * 2 ^ 149 - 1000 * unitStep c g) ≤ 2 ^ 149)

/-- The value of `g` units is below `1.0f` and the addition of `c` units gives a
value larger than `1.0f`. -/
def lastOk (c g : Nat) : Bool :=
  decide (g < 2 ^ 149) && decide (2 ^ 149 < unitStep c g)

/-- One pass over `k` additions of `c` units starting from `g` units, the value
after `i` additions: every addition is `stepOk` and the value after all of them
is `lastOk`. -/
def unitWalk (c : Nat) : Nat → Nat → Nat → Bool
  | 0, _, g => lastOk c g
  | k + 1, i, g => stepOk c i g && unitWalk c k (i + 1) (unitStep c g)

/-- Offset `k` has been written once every pixel of the columns before `x`, and
the rows before `y` of column `x`, are done. -/
@[reducible] def covered (W H x y k : Nat) : Prop :=
  k < 3 * W * H ∧ ((k % (3 * W)) / 3 < x ∨ ((k % (3 * W)) / 3 = x ∧ k / (3 * W) < y))

/-- Loop invariant of the pixel loops of `createTexture`. -/
def FillInv (W H R x y : Nat) (buf : Buf) : Prop :=
  buf.size = (W : Int) * 3 * H ∧
  ∀ k, buf.cell k = if covered W H x y k then [checker R ((k % (3 * W)) / 3) (k / (3 * W))] else []

/-- The calls made on the way from state `s` to state `s'`. -/
def issued (s s' : State) : List Cmd := s'.trace.drop s.trace.length

/-- The answer of a link-status query: the program asked about and the value
left in `status`. -/
def Cmd.linkStatus : Cmd → Option (Nat × Int)
  | .glGetProgramiv p pname r => if pname = GL_LINK_STATUS then some (p, r) else none
  | _ => none

/-- The calls of lines 181-188 of `setupGraphics`. -/
def entryCalls : List Cmd :=
  [.glGetString GL_VERSION, .log .info "GL %s = %s\n",
   .glGetString GL_VENDOR, .log .info "GL %s = %s\n",
   .glGetString GL_RENDERER, .log .info "GL %s = %s\n",
   .glGetString GL_EXTENSIONS, .log .info "GL %s = %s\n",
   .log .info "setupGraphics(%d, %d)"]

/-- The calls of `createProgram` when it starts at query number `t`. -/
def programCalls (d : Driver) (t : Nat) : List Cmd :=
  [.glCreateShader GL_VERTEX_SHADER (d.shaderName t),
   .glShaderSource (d.shaderName t) 2 [.kHeader, .kQuadVS],
   .glCompileShader (d.shaderName t),
   .glCreateShader GL_FRAGMENT_SHADER (d.shaderName (t + 1)),
   .glShaderSource (d.shaderName (t + 1)) 2 [.kHeader, .kQuadFS],
   .glCompileShader (d.shaderName (t + 1)),
   .log .info "Compiled shaders",
   .glCreateProgram (d.programName (t + 2)),
   .glAttachShader (d.programName (t + 2)) (d.shaderName t),
   .glAttachShader (d.programName (t + 2)) (d.shaderName (t + 1)),
   .glLinkProgram (d.programName (t + 2)),
   .glGetProgramiv (d.programName (t + 2)) GL_LINK_STATUS (d.linkStatus (t + 3))]
  ++ (if GL_FALSE = d.linkStatus (t + 3) then
        [.glGetProgramInfoLog (d.programName (t + 2)) 1024,
         .log .error "Program linking failed:\n%s",
         .glDeleteProgram (d.programName (t + 2))]
      else [])
  ++ [.glDeleteShader (d.shaderName t), .glDeleteShader (d.shaderName (t + 1)),
      .log .info "Compiled program"]

/-- The handle `createProgram` returns when it starts at query number `t`. -/
def programHandle (d : Driver) (t : Nat) : Nat :=
  if GL_FALSE = d.linkStatus (t + 3) then 0 else d.programName (t + 2)

/-- The calls of `createTexture` for the texture name `name` and the bytes `px`. -/
def textureCalls (name : Nat) (width height : Int) (px : List (Option Nat)) : List Cmd :=
  [.glGenTextures 1 name,
   .glBindTexture GL_TEXTURE_2D name,
   .glTexImage2D GL_TEXTURE_2D 0 GL_RGB width height 0 GL_RGB GL_UNSIGNED_BYTE px,
   .glTexParameteri GL_TEXTURE_2D GL_TEXTURE_WRAP_S GL_REPEAT,
   .glTexParameteri GL_TEXTURE_2D GL_TEXTURE_WRAP_T GL_REPEAT,
   .glTexParameteri GL_TEXTURE_2D GL_TEXTURE_MIN_FILTER GL_LINEAR,
   .glTexParameteri GL_TEXTURE_2D GL_TEXTURE_MAG_FILTER GL_LINEAR,
   .log .info "DEBUG C++ Texture created [%d]"]

/-- The calls of the first `k` rounds of the loop in line 198 when it starts at
query number `t`. -/
def aniTexCalls (d : Driver) (t k : Nat) : List Cmd :=
  (List.range k).flatMap
    (fun i => textureCalls (d.textureName (t + i)) tw th (checkerboard 240 240 (3 + i)))

/-- The calls of `SetupFramebuffer` when `fb` is `0` and it starts at query
number `t`. -/
def framebufferCalls (d : Driver) (tex t : Nat) : List Cmd :=
  [.glGenFramebuffers 1 (d.framebufferName t),
   .glBindFramebuffer GL_DRAW_FRAMEBUFFER (d.framebufferName t),
   .glFramebufferTexture2D GL_DRAW_FRAMEBUFFER GL_COLOR_ATTACHMENT0 GL_TEXTURE_2D tex 0,
   .glCheckFramebufferStatus GL_DRAW_FRAMEBUFFER (d.framebufferStatus (t + 1)),
   .glBindFramebuffer GL_DRAW_FRAMEBUFFER 0,
   if d.framebufferStatus (t + 1) ≠ GL_FRAMEBUFFER_COMPLETE then
     .log .error "Incomplete frame buffer object!"
   else .log .info "Created FBO %d for texture %d."]

/-- The calls of `setupGraphics` on the path where the program was built. -/
def setupCalls (d : Driver) (w h : Int) (s : State) : List Cmd :=
  entryCalls ++ programCalls d s.tick ++ [.glViewport 0 0 w h]
    ++ drainErrors (d.errors (s.tick + 4))
    ++ textureCalls (d.textureName (s.tick + 5)) tw th (checkerboard 240 240 6)
    ++ aniTexCalls d (s.tick + 6) 25
    ++ (if s.fb = 0 then framebufferCalls d (d.textureName (s.tick + 5)) (s.tick + 31) else [])

/-- The state `setupGraphics` leaves on the path where the program was built. -/
def setupDone (d : Driver) (w h : Int) (s : State) : State :=
  { s with
    gProgram := programHandle d s.tick
    tex := d.textureName (s.tick + 5)
    fb := if s.fb = 0 then d.framebufferName (s.tick + 31) else s.fb
    aniTex := fun i => if i < 25 then d.textureName (s.tick + 6 + i) else s.aniTex i
    width := w
    height := h
    tick := if s.fb = 0 then s.tick + 33 else s.tick + 31
    trace := s.trace ++ setupCalls d w h s }

/-- The state `setupGraphics` leaves on the path where the program build failed. -/
def setupFailed (d : Driver) (w h : Int) (s : State) : State :=
  { s with
    gProgram := 0
    width := w
    height := h
    tick := s.tick + 4
    trace := s.trace ++ (entryCalls ++ programCalls d s.tick
      ++ [.log .error "Could not create program."]) }

/-- The value `renderFrame` gives the static `grey`. -/
def nextGrey (g : F32) : F32 :=
  if (F32.lit 1 1).units < (g.add (F32.lit 1 1000)).units then F32.lit 0 1
  else g.add (F32.lit 1 1000)

/-- The calls of `blitTexture`. -/
def blitCalls (d : Driver) (s : State) : List Cmd :=
  [.glBindFramebuffer GL_FRAMEBUFFER s.fb]
    ++ drainErrors (d.errors s.tick)
    ++ [.glFramebufferTexture2D GL_FRAMEBUFFER GL_COLOR_ATTACHMENT1 GL_TEXTURE_2D
          (s.aniTex s.time.toNat) 0]
    ++ drainErrors (d.errors (s.tick + 1))
    ++ [.glReadBuffer GL_COLOR_ATTACHMENT1]
    ++ drainErrors (d.errors (s.tick + 2))
    ++ [.glDrawBuffers 1 attachment]
    ++ drainErrors (d.errors (s.tick + 3))
    ++ [.glCheckFramebufferStatus GL_FRAMEBUFFER (d.framebufferStatus (s.tick + 4))]
    ++ (if d.framebufferStatus (s.tick + 4) ≠ GL_FRAMEBUFFER_COMPLETE then
          [.log .error "Incomplete frame buffer object!"]
        else [])
    ++ [.glBlitFramebuffer 0 0 tw th 0 0 tw th GL_COLOR_BUFFER_BIT GL_LINEAR,
        .glGetFramebufferParameteriv GL_READ_FRAMEBUFFER GL_FRAMEBUFFER_DEFAULT_SAMPLES
          (d.samples (s.tick + 5)),
        .log .info "SAMPLES draw buffer %d"]
    ++ drainErrors (d.errors (s.tick + 6))

/-- The calls of `renderFrame` after `blitTexture` has returned. -/
def drawCalls (d : Driver) (s : State) : List Cmd :=
  drainErrors (d.errors (s.tick + 7))
    ++ [.glBindFramebuffer GL_FRAMEBUFFER 0,
        .glViewport 0 0 s.width s.height,
        .glScissor 0 0 s.width s.height]
    ++ drainErrors (d.errors (s.tick + 8))
    ++ [.glClear (GL_DEPTH_BUFFER_BIT ||| GL_COLOR_BUFFER_BIT)]
    ++ drainErrors (d.errors (s.tick + 9))
    ++ [.glActiveTexture GL_TEXTURE0, .glBindTexture GL_TEXTURE_2D s.tex]
    ++ drainErrors (d.errors (s.tick + 10))
    ++ [.glTexParameterf GL_TEXTURE_2D GL_TEXTURE_MIN_FILTER GL_LINEAR,
        .glTexParameterf GL_TEXTURE_2D GL_TEXTURE_MAG_FILTER GL_LINEAR,
        .glUniform1i kTexture0Uniform 0]
    ++ drainErrors (d.errors (s.tick + 11))
    ++ [.glUseProgram s.gProgram]
    ++ drainErrors (d.errors (s.tick + 12))
    ++ [.glVertexAttribPointer kVerticesArrayAttr 2 GL_FLOAT false 0 gTriangleVertices]
    ++ drainErrors (d.errors (s.tick + 13))
    ++ [.glEnableVertexAttribArray kVerticesArrayAttr,
        .glVertexAttribPointer kUVsArrayAttr 2 GL_FLOAT false 0 gTriangleUVs]
    ++ drainErrors (d.errors (s.tick + 14))
    ++ [.glEnableVertexAttribArray kUVsArrayAttr]
    ++ drainErrors (d.errors (s.tick + 15))
    ++ [.glDrawArrays GL_TRIANGLES 0 3]
    ++ drainErrors (d.errors (s.tick + 16))

/-- The calls of `renderFrame`. -/
def renderCalls (d : Driver) (s : State) : List Cmd :=
  [.glClearColor (nextGrey s.grey) (F32.lit 0 1) (F32.lit 0 1) (F32.lit 1 1)]
    ++ blitCalls d s ++ drawCalls d s

/-- The state `renderFrame` leaves when `time` is a valid index of `aniTex`. -/
def renderDone (d : Driver) (s : State) : State :=
  { s with
    time := (s.time + 1).tmod 25
    grey := nextGrey s.grey
    tick := s.tick + 17
    trace := s.trace ++ renderCalls d s }

/-- The calls of the first `n` calls of `renderFrame` from state `s`. -/
def framesCalls (d : Driver) (s : State) : Nat → List Cmd
  | 0 => []
  | n + 1 => framesCalls d s n ++ renderCalls d ((renderDone d)^[n] s)

/-! ## Sample drivers -/

/-- A driver on which everything succeeds: the `k`-th query for a name yields
`k + 1`, programs link, framebuffers are complete and no error is pending. -/
def okDriver : Driver :=
  { shaderName := fun k => k + 1
    programName := fun k => k + 1
    linkStatus := fun _ => GL_TRUE
    textureName := fun k => k + 1
    framebufferName := fun k => k + 1
    framebufferStatus := fun _ => GL_FRAMEBUFFER_COMPLETE
    samples := fun _ => 0
    errors := fun _ => [] }

/-- A driver that reports every framebuffer as incomplete. -/
def incompleteDriver : Driver :=
  { okDriver with framebufferStatus := fun _ => GL_FRAMEBUFFER_INCOMPLETE_ATTACHMENT }

/-! ## Loops and the pixel buffer -/

/-- Invariant rule for `forLoop`: a loop whose bound is reached after exactly `n`
steps runs its body `n` times when given at least `n` units of fuel. -/
theorem forLoop_inv {σ : Type} (body : Int → σ → Except Fault σ) (bound step : Int)
    (hstep : 0 < step) :
    ∀ (n : Nat) (Inv : Nat → σ → Prop) (start : Int) (fuel : Nat) (s : σ),
      bound = start + n * step → n ≤ fuel →
      (∀ k t, k < n → Inv k t → ∃ t', body (start + k * step) t = .ok t' ∧ Inv (k + 1) t') →
      Inv 0 s → ∃ s', forLoop body bound step fuel start s = .ok s' ∧ Inv n s' := by
  intro n
  induction n with
  | zero =>
    intro Inv start fuel s hb _ _ h0
    have hlt : ¬ start < bound := by simp [hb]
    refine ⟨s, ?_, h0⟩
    cases fuel <;> simp [forLoop, hlt]
  | succ n ih =>
    intro Inv start fuel s hb hfuel hbody h0
    obtain ⟨fuel, rfl⟩ : ∃ f, fuel = f + 1 := ⟨fuel - 1, by omega⟩
    have hlt : start < bound := by
      rw [hb]; push_cast
      have : (0 : Int) ≤ n * step := mul_nonneg (by positivity) hstep.le
      linarith
    obtain ⟨s1, hs1, hI1⟩ := hbody 0 s (by omega) h0
    simp only [Nat.cast_zero, zero_mul, add_zero] at hs1
    have := ih (fun k t => Inv (k + 1) t) (start + step) fuel s1
      (by rw [hb]; push_cast; ring) (by omega)
      (by
        intro k t hk hI
        have := hbody (k + 1) t (by omega) hI
        push_cast at this
        have e : start + step + (k : Int) * step = start + ((k : Int) + 1) * step := by ring
        rw [e]; exact this)
      hI1
    obtain ⟨s', hs', hI'⟩ := this
    exact ⟨s', by simp [forLoop, hlt, hs1, hs'], hI'⟩


theorem cdiv_cast (a b : Nat) (hb : 0 < b) :
    cdiv (a : Int) (b : Int) = .ok ((a / b : Nat) : Int) := by
  have : (b : Int) ≠ 0 := by exact_mod_cast hb.ne'
  simp only [cdiv, this, if_false]
  rw [Int.ofNat_tdiv]

theorem toUChar_col (x y R : Nat) :
    toUChar ((((x / R : Nat) : Int) + ((y / R : Nat) : Int)).tmod 2 * 255) = checker R x y := by
  have h : (((x / R : Nat) : Int) + ((y / R : Nat) : Int)).tmod 2
      = (((x / R + y / R) % 2 : Nat) : Int) := by
    rw [Int.tmod_eq_emod (by positivity) (by norm_num)]; push_cast; rfl
  rw [h]
  unfold checker toUChar
  rcases Nat.mod_two_eq_zero_or_one (x / R + y / R) with h0 | h1
  · simp [h0]
  · simp [h1]

/-- Byte offsets of one pixel are inside the buffer. -/
theorem pixel_index_lt (W H x y c : Nat) (hx : x < W) (hy : y < H) (hc : c < 3) :
    3 * x + c + y * (3 * W) < 3 * W * H := by
  have h1 : (y + 1) * (3 * W) ≤ H * (3 * W) := Nat.mul_le_mul_right _ hy
  have h2 : 3 * W * H = H * (3 * W) := by ring
  have h3 : (y + 1) * (3 * W) = y * (3 * W) + 3 * W := by ring
  omega

/-- A byte offset belongs to pixel `(x, y)` exactly when it is one of the three
offsets the loop body writes. -/
theorem pixel_index_iff (W x y k : Nat) (hx : x < W) :
    ((k % (3 * W)) / 3 = x ∧ k / (3 * W) = y) ↔
      (k = 3 * x + 0 + y * (3 * W) ∨ k = 3 * x + 1 + y * (3 * W) ∨ k = 3 * x + 2 + y * (3 * W)) := by
  have hM : 0 < 3 * W := by omega
  constructor
  · rintro ⟨h1, h2⟩
    have e1 := Nat.div_add_mod k (3 * W)
    rw [h2, Nat.mul_comm] at e1
    have e2 := Nat.div_add_mod (k % (3 * W)) 3
    rw [h1] at e2
    have e3 := Nat.mod_lt (k % (3 * W)) (show 0 < 3 by norm_num)
    omega
  · intro h
    have key : ∀ c, c < 3 → k = 3 * x + c + y * (3 * W) →
        (k % (3 * W)) / 3 = x ∧ k / (3 * W) = y := by
      intro c hc hk
      have hlt : 3 * x + c < 3 * W := by omega
      have hd : k / (3 * W) = y ∧ k % (3 * W) = 3 * x + c :=
        (Nat.div_mod_unique hM).2 ⟨by rw [hk]; ring, hlt⟩
      refine ⟨?_, hd.1⟩
      rw [hd.2]; omega
    rcases h with h | h | h
    · exact key 0 (by norm_num) h
    · exact key 1 (by norm_num) h
    · exact key 2 (by norm_num) h

theorem Buf.store_ok (b : Buf) (n : Nat) (v : Nat) (h : (n : Int) < b.size) :
    b.store (n : Int) v
      = .ok { size := b.size, cell := Function.update b.cell n (v :: b.cell n) } := by
  have h0 : (0 : Int) ≤ (n : Int) := by positivity
  simp [Buf.store, h, h0]

/-- Effect of one execution of the loop body at pixel `(x, y)`. -/
theorem pixelBody_spec (W H R x y : Nat) (hR : 1 ≤ R) (hx : x < W) (hy : y < H)
    (buf : Buf) (hsz : buf.size = (W : Int) * 3 * H) :
    ∃ buf', pixelBody ((W : Int) * 3) R (0 + (x : Int) * 3) (0 + (y : Int) * 1) buf = .ok buf' ∧
      buf'.size = buf.size ∧
      ∀ k, buf'.cell k =
        if (k % (3 * W)) / 3 = x ∧ k / (3 * W) = y then checker R x y :: buf.cell k
        else buf.cell k := by
  have ha : cdiv (0 + (x : Int) * 3) (3 * (R : Int)) = .ok ((x / R : Nat) : Int) := by
    have := cdiv_cast (3 * x) (3 * R) (by omega)
    rw [Nat.mul_div_mul_left _ _ (by norm_num : 0 < 3)] at this
    rw [← this]; push_cast; ring_nf
  have hb : cdiv (0 + (y : Int) * 1) (R : Int) = .ok ((y / R : Nat) : Int) := by
    have := cdiv_cast y R (by omega)
    rw [← this]; ring_nf
  have h2 : (0 + (x : Int) * 3 + 2 + (0 + (y : Int) * 1) * ((W : Int) * 3))
      = ((3 * x + 2 + y * (3 * W) : Nat) : Int) := by push_cast; ring
  have h1 : (0 + (x : Int) * 3 + 1 + (0 + (y : Int) * 1) * ((W : Int) * 3))
      = ((3 * x + 1 + y * (3 * W) : Nat) : Int) := by push_cast; ring
  have h0 : (0 + (x : Int) * 3 + (0 + (y : Int) * 1) * ((W : Int) * 3))
      = ((3 * x + 0 + y * (3 * W) : Nat) : Int) := by push_cast; ring
  have hin : ∀ c : Nat, c < 3 →
      ((3 * x + c + y * (3 * W) : Nat) : Int) < (W : Int) * 3 * H := by
    intro c hc
    have := pixel_index_lt W H x y c hx hy hc
    have e : (W : Int) * 3 * H = ((3 * W * H : Nat) : Int) := by push_cast; ring
    rw [e]; exact_mod_cast this
  unfold pixelBody
  rw [ha, hb]
  dsimp only
  rw [toUChar_col, h2, h1, h0, Buf.store_ok _ _ _ (by rw [hsz]; exact hin 2 (by norm_num))]
  dsimp only
  rw [Buf.store_ok _ _ _ (by rw [hsz]; exact hin 1 (by norm_num))]
  dsimp only
  rw [Buf.store_ok _ _ _ (by rw [hsz]; exact hin 0 (by norm_num))]
  refine ⟨_, rfl, rfl, ?_⟩
  intro k
  simp only [Function.update_apply]
  have hiff := pixel_index_iff W x y k hx
  by_cases e0 : k = 3 * x + 0 + y * (3 * W)
  · have hp := hiff.2 (Or.inl e0)
    rw [if_pos hp, if_pos e0, if_neg (by omega), if_neg (by omega), e0]
  · by_cases e1 : k = 3 * x + 1 + y * (3 * W)
    · have hp := hiff.2 (Or.inr (Or.inl e1))
      rw [if_pos hp, if_neg e0, if_pos e1, if_neg (by omega), e1]
    · by_cases e2 : k = 3 * x + 2 + y * (3 * W)
      · have hp := hiff.2 (Or.inr (Or.inr e2))
        rw [if_pos hp, if_neg e0, if_neg e1, if_pos e2, e2]
      · have hn : ¬ ((k % (3 * W)) / 3 = x ∧ k / (3 * W) = y) := by
          rw [hiff]; tauto
        rw [if_neg hn, if_neg e0, if_neg e1, if_neg e2]

theorem fillInv_step (W H R x y : Nat) (hR : 1 ≤ R) (hx : x < W) (hy : y < H) (buf : Buf)
    (hI : FillInv W H R x y buf) :
    ∃ buf', pixelBody ((W : Int) * 3) R (0 + (x : Int) * 3) (0 + (y : Int) * 1) buf = .ok buf' ∧
      FillInv W H R x (y + 1) buf' := by
  obtain ⟨buf', hrun, hsz, hcell⟩ := pixelBody_spec W H R x y hR hx hy buf hI.1
  refine ⟨buf', hrun, hsz.trans hI.1, ?_⟩
  intro k
  rw [hcell k, hI.2 k]
  by_cases hk : (k % (3 * W)) / 3 = x ∧ k / (3 * W) = y
  · have hlt : k < 3 * W * H := by
      rcases (pixel_index_iff W x y k hx).1 hk with h | h | h <;> rw [h]
      · exact pixel_index_lt W H x y 0 hx hy (by norm_num)
      · exact pixel_index_lt W H x y 1 hx hy (by norm_num)
      · exact pixel_index_lt W H x y 2 hx hy (by norm_num)
    have hnot : ¬ covered W H x y k := by
      unfold covered; omega
    have hyes : covered W H x (y + 1) k := by
      unfold covered; omega
    rw [if_pos hk, if_neg hnot, if_pos hyes, hk.1, hk.2]
  · have hiff : covered W H x (y + 1) k ↔ covered W H x y k := by
      unfold covered; omega
    rw [if_neg hk]
    by_cases hc : covered W H x y k
    · rw [if_pos hc, if_pos (hiff.2 hc)]
    · rw [if_neg hc, if_neg (fun h => hc (hiff.1 h))]

theorem fillInv_column (W H R x : Nat) (hR : 1 ≤ R) (hx : x < W) (buf : Buf)
    (hI : FillInv W H R x 0 buf) :
    ∃ buf', forLoop (fun j b => pixelBody ((W : Int) * 3) R (0 + (x : Int) * 3) j b)
        (H : Int) 1 (H : Int).toNat 0 buf = .ok buf' ∧ FillInv W H R (x + 1) 0 buf' := by
  obtain ⟨buf', hrun, hI'⟩ :=
    forLoop_inv (fun j b => pixelBody ((W : Int) * 3) R (0 + (x : Int) * 3) j b) (H : Int) 1
      (by norm_num) H (fun y b => FillInv W H R x y b) 0 (H : Int).toNat buf (by ring) (by simp)
      (fun y b hy hb => fillInv_step W H R x y hR hx hy b hb) hI
  refine ⟨buf', hrun, hI'.1, ?_⟩
  intro k
  rw [hI'.2 k]
  have hiff : covered W H (x + 1) 0 k ↔ covered W H x H k := by
    unfold covered
    constructor
    · rintro ⟨h1, h2⟩
      have hy : k / (3 * W) < H := by
        rw [Nat.div_lt_iff_lt_mul (by omega)]
        calc k < 3 * W * H := h1
          _ = H * (3 * W) := by ring
      refine ⟨h1, ?_⟩
      generalize k % (3 * W) / 3 = xk at *
      generalize k / (3 * W) = yk at *
      omega
    · rintro ⟨h1, h2⟩
      refine ⟨h1, ?_⟩
      generalize k % (3 * W) / 3 = xk at *
      generalize k / (3 * W) = yk at *
      omega
  by_cases hc : covered W H x H k
  · rw [if_pos hc, if_pos (hiff.2 hc)]
  · rw [if_neg hc, if_neg (fun h => hc (hiff.1 h))]

/-- The pixel loops of `createTexture` terminate without a fault and leave every
byte of the buffer written exactly once, with the grey value of its pixel. -/
theorem fillPixels_nat (W H R : Nat) (hR : 1 ≤ R) :
    ∃ buf, fillPixels W H R = .ok buf ∧ buf.size = (W : Int) * 3 * H ∧
      ∀ k, buf.cell k =
        if k < 3 * W * H then [checker R ((k % (3 * W)) / 3) (k / (3 * W))] else [] := by
  have h0 : FillInv W H R 0 0 (Buf.fresh ((W : Int) * 3 * H)) := by
    refine ⟨rfl, ?_⟩
    intro k
    have : ¬ covered W H 0 0 k := by
      rintro ⟨_, h | ⟨_, h⟩⟩ <;> exact absurd h (Nat.not_lt_zero _)
    rw [if_neg this]; rfl
  obtain ⟨buf, hrun, hI⟩ :=
    forLoop_inv
      (fun i b => forLoop (fun j b => pixelBody ((W : Int) * 3) R i j b) (H : Int) 1
        (H : Int).toNat 0 b)
      ((W : Int) * 3) 3 (by norm_num) W (fun x b => FillInv W H R x 0 b) 0
      ((W : Int) * 3).toNat (Buf.fresh ((W : Int) * 3 * H)) (by ring) (by omega)
      (fun x b hx hb => fillInv_column W H R x hR hx b hb) h0
  refine ⟨buf, hrun, hI.1, ?_⟩
  intro k
  rw [hI.2 k]
  have hiff : covered W H W 0 k ↔ k < 3 * W * H := by
    unfold covered
    constructor
    · exact fun h => h.1
    · intro h
      have hW : 0 < W := by
        rcases Nat.eq_zero_or_pos W with h0 | h0
        · subst h0; simp at h
        · exact h0
      have := Nat.mod_lt k (show 0 < 3 * W by omega)
      omega
  by_cases hc : k < 3 * W * H
  · rw [if_pos hc, if_pos (hiff.2 hc)]
  · rw [if_neg hc, if_neg (fun h => hc (hiff.1 h))]

/-! ## The static `grey` in binary32 -/

/-- The literal `0.001f` is `8589935 * 2 ^ (-33)`. -/
theorem F32.lit_milli : F32.lit 1 1000 = ⟨((8589935 * 2 ^ 116 : Nat) : Int)⟩ := by decide!

/-- The literal `1.0f`. -/
theorem F32.lit_one : F32.lit 1 1 = ⟨((2 ^ 149 : Nat) : Int)⟩ := by decide!

/-- The literal `0.0f`. -/
theorem F32.lit_zero : F32.lit 0 1 = ⟨((0 : Nat) : Int)⟩ := by decide!

/-- Addition of two non-negative `float` values. -/
theorem F32.add_nat (a b : Nat) :
    F32.add ⟨(a : Int)⟩ ⟨(b : Int)⟩ = ⟨((unitStep b a : Nat) : Int)⟩ := by
  have h : ¬ ((a : Int) + (b : Int) < 0) := by omega
  have e : ((a : Int) + (b : Int)).natAbs = a + b := by omega
  simp only [F32.add, h, if_false, e, unitStep]

/-- The value after `m` additions, in units. -/
theorem greyAt_units (m : Nat) :
    greyAt m = ⟨(((unitStep (8589935 * 2 ^ 116))^[m] 0 : Nat) : Int)⟩ := by
  induction m with
  | zero => simp only [greyAt, Function.iterate_zero, id_eq, F32.lit_zero]
  | succ m ih =>
    have e : greyAt (m + 1) = (greyAt m).add (F32.lit 1 1000) := by
      simp only [greyAt, Function.iterate_succ_apply']
    rw [e, ih, F32.lit_milli, F32.add_nat, Function.iterate_succ_apply']

/-- What a successful pass establishes. -/
theorem unitWalk_spec (c : Nat) : ∀ (k i g : Nat), unitWalk c k i g = true →
    (∀ j, j < k → stepOk c (i + j) ((unitStep c)^[j] g) = true) ∧
    lastOk c ((unitStep c)^[k] g) = true := by
  intro k
  induction k with
  | zero =>
    intro i g h
    exact ⟨fun j hj => absurd hj (Nat.not_lt_zero j), h⟩
  | succ k ih =>
    intro i g h
    rw [unitWalk, Bool.and_eq_true] at h
    obtain ⟨hall, hlast⟩ := ih (i + 1) (unitStep c g) h.2
    refine ⟨?_, ?_⟩
    · intro j hj
      cases j with
      | zero => exact h.1
      | succ j =>
        have hj' := hall j (by omega)
        rw [Function.iterate_succ_apply]
        have e : i + (j + 1) = i + 1 + j := by omega
        rw [e]
        exact hj'
    · rw [Function.iterate_succ_apply]
      exact hlast

/-- The pass over the 1000 additions of `0.001f` to `0.0f` succeeds. -/
theorem unitWalk_run : unitWalk (8589935 * 2 ^ 116) 1000 0 0 = true := by decide!

/-- The facts of the pass, for the addition number `m + 1`. -/
theorem unitWalk_step (m : Nat) (hm : m < 1000) :
    (unitStep (8589935 * 2 ^ 116))^[m] 0 < (unitStep (8589935 * 2 ^ 116))^[m + 1] 0 ∧
    (unitStep (8589935 * 2 ^ 116))^[m + 1] 0 ≤ 2 ^ 149 ∧
    100 * (1000 * (unitStep (8589935 * 2 ^ 116))^[m + 1] 0 - (m + 1) * 2 ^ 149) ≤ 2 ^ 149 ∧
    100 * ((m + 1) * 2 ^ 149 - 1000 * (unitStep (8589935 * 2 ^ 116))^[m + 1] 0) ≤ 2 ^ 149 := by
  have h := (unitWalk_spec _ 1000 0 0 unitWalk_run).1 m hm
  rw [Nat.zero_add] at h
  simp only [stepOk, Bool.and_eq_true, decide_eq_true_eq] at h
  rw [Function.iterate_succ_apply']
  exact ⟨h.1.1.1, h.1.1.2, h.1.2, h.2⟩

/-- The facts of the pass, for the value after 1000 additions. -/
theorem unitWalk_last :
    (unitStep (8589935 * 2 ^ 116))^[1000] 0 < 2 ^ 149 ∧
    2 ^ 149 < unitStep (8589935 * 2 ^ 116) ((unitStep (8589935 * 2 ^ 116))^[1000] 0) := by
  have h := (unitWalk_spec _ 1000 0 0 unitWalk_run).2
  simp only [lastOk, Bool.and_eq_true, decide_eq_true_eq] at h
  exact h

theorem greyAt_succ (m : Nat) : greyAt (m + 1) = (greyAt m).add (F32.lit 1 1000) := by
  simp only [greyAt, Function.iterate_succ_apply']

/-- Up to 1000 additions the value grows and does not exceed `1.0f`. -/
theorem greyAt_step (m : Nat) (hm : m < 1000) :
    (greyAt m).units < (greyAt (m + 1)).units ∧
    ¬ ((F32.lit 1 1).units < (greyAt (m + 1)).units) := by
  obtain ⟨h1, h2, _, _⟩ := unitWalk_step m hm
  rw [greyAt_units, greyAt_units, F32.lit_one]
  constructor
  · exact Int.ofNat_lt.mpr h1
  · exact not_lt.mpr (Int.ofNat_le.mpr h2)

/-- The addition after the 1000th gives a value larger than `1.0f`. -/
theorem greyAt_wrap : (F32.lit 1 1).units < ((greyAt 1000).add (F32.lit 1 1000)).units := by
  rw [greyAt_units, F32.lit_milli, F32.add_nat, F32.lit_one]
  exact Int.ofNat_lt.mpr unitWalk_last.2

/-- The number a non-negative `float` stands for. -/
theorem F32.toRat_nat (u : Nat) : F32.toRat ⟨(u : Int)⟩ = (u : ℚ) / 2 ^ 149 := by
  simp [F32.toRat]

/-- Closeness in units, read as closeness of the numbers. -/
theorem close_of_units (u M P : Nat) (hP : 0 < P) (h3 : 100 * (1000 * u - M * P) ≤ P)
    (h4 : 100 * (M * P - 1000 * u) ≤ P) :
    |(u : ℚ) / (P : ℚ) - (M : ℚ) / 1000| ≤ 1 / 100000 := by
  have hPq : (0 : ℚ) < (P : ℚ) := by exact_mod_cast hP
  have h3' : 100000 * u ≤ P + 100 * (M * P) := by omega
  have h4' : 100 * (M * P) ≤ P + 100000 * u := by omega
  have h3q : (100000 : ℚ) * u ≤ P + 100 * (M * P) := by exact_mod_cast h3'
  have h4q : (100 : ℚ) * (M * P) ≤ P + 100000 * u := by exact_mod_cast h4'
  rw [abs_le]
  constructor
  · rw [le_sub_iff_add_le, le_div_iff₀ hPq]
    linarith
  · rw [sub_le_iff_le_add, div_le_iff₀ hPq]
    linarith

/-- Up to 1000 additions the value is within `1 / 100000` of `m / 1000`. -/
theorem greyAt_close (m : Nat) (hm : m < 1000) :
    |(greyAt (m + 1)).toRat - ((m + 1 : Nat) : ℚ) / 1000| ≤ 1 / 100000 := by
  obtain ⟨_, _, h3, h4⟩ := unitWalk_step m hm
  rw [greyAt_units, F32.toRat_nat]
  have hP : (2 : ℚ) ^ 149 = ((2 ^ 149 : Nat) : ℚ) := by rw [Nat.cast_pow, Nat.cast_ofNat]
  rw [hP]
  exact close_of_units _ (m + 1) (2 ^ 149) (Nat.two_pow_pos 149) h3 h4

/-- The value after 1000 additions is below 1, and one addition gives `0.001f`,
which is `8589935 / 2 ^ 33` and not `1 / 1000`. -/
theorem greyAt_values :
    (greyAt 1000).toRat < 1 ∧ greyAt 1 = F32.lit 1 1000 ∧
    (F32.lit 1 1000).toRat = 8589935 / 2 ^ 33 ∧ (F32.lit 1 1000).toRat ≠ 1 / 1000 := by
  have hv : (F32.lit 1 1000).toRat = 8589935 / 2 ^ 33 := by
    rw [F32.lit_milli, F32.toRat_nat]
    norm_num
  refine ⟨?_, ?_, hv, ?_⟩
  · rw [greyAt_units, F32.toRat_nat]
    have hP : (2 : ℚ) ^ 149 = ((2 ^ 149 : Nat) : ℚ) := by rw [Nat.cast_pow, Nat.cast_ofNat]
    rw [hP, div_lt_one (by exact_mod_cast Nat.two_pow_pos 149)]
    exact_mod_cast unitWalk_last.1
  · have h1 : unitStep (8589935 * 2 ^ 116) 0 = 8589935 * 2 ^ 116 := by decide!
    rw [greyAt_units, F32.lit_milli, Function.iterate_succ_apply', Function.iterate_zero, id_eq,
      h1]
  · rw [hv]
    norm_num

/-! ## `createTexture`: the pixel buffer -/

/-- The result of the pixel loops for `int` arguments in the stated ranges. -/
theorem fillPixels_spec (w h r : Int) (hw : 0 ≤ w) (hh : 0 ≤ h) (hr : 1 ≤ r) :
    ∃ buf, fillPixels w h r = .ok buf ∧ buf.size = w * 3 * h ∧
      ∀ k, buf.cell k =
        if k < 3 * w.toNat * h.toNat then
          [checker r.toNat ((k % (3 * w.toNat)) / 3) (k / (3 * w.toNat))]
        else [] := by
  lift w to Nat using hw
  lift h to Nat using hh
  lift r to Nat using (by omega : (0 : Int) ≤ r)
  simpa using fillPixels_nat w h r (by exact_mod_cast hr)

/-- The three bytes of pixel `(x, y)` after the pixel loops. -/
theorem fillPixels_pixel (W H R : Nat) (hR : 1 ≤ R) :
    ∃ buf, fillPixels W H R = .ok buf ∧
      ∀ x y c, x < W → y < H → c < 3 → buf.cell (3 * x + c + y * (3 * W)) = [checker R x y] := by
  obtain ⟨buf, hrun, _, hcell⟩ := fillPixels_nat W H R hR
  refine ⟨buf, hrun, ?_⟩
  intro x y c hx hy hc
  have hlt := pixel_index_lt W H x y c hx hy hc
  have hxy : ((3 * x + c + y * (3 * W)) % (3 * W)) / 3 = x ∧ (3 * x + c + y * (3 * W)) / (3 * W) = y := by
    rw [pixel_index_iff W x y _ hx]
    omega
  rw [hcell, if_pos hlt, hxy.1, hxy.2]

/-- The bytes uploaded after the pixel loops are those of the checkerboard. -/
theorem fillPixels_bytes (W H R : Nat) (hR : 1 ≤ R) :
    ∃ buf, fillPixels W H R = .ok buf ∧ buf.bytes = checkerboard W H R := by
  obtain ⟨buf, hrun, hsz, hcell⟩ := fillPixels_nat W H R hR
  refine ⟨buf, hrun, ?_⟩
  have e : buf.size.toNat = 3 * W * H := by
    rw [hsz]
    have : (W : Int) * 3 * H = ((3 * W * H : Nat) : Int) := by push_cast; ring
    rw [this, Int.toNat_ofNat]
  unfold Buf.bytes checkerboard
  rw [e]
  apply List.map_congr_left
  intro k hk
  rw [List.mem_range] at hk
  rw [hcell, if_pos hk]
  rfl

/-- The byte at offset `k` of a checkerboard. -/
theorem checkerboard_get (w h r k : Nat) (hk : k < 3 * w * h) :
    (checkerboard w h r)[k]? = some (some (checker r ((k % (3 * w)) / 3) (k / (3 * w)))) := by
  simp [checkerboard, List.getElem?_map, List.getElem?_range hk]

/-- Every byte of a checkerboard is initialised. -/
theorem checkerboard_ne_none (w h r : Nat) : ∀ b ∈ checkerboard w h r, b ≠ none := by
  intro b hb
  simp only [checkerboard, List.mem_map] at hb
  obtain ⟨k, _, rfl⟩ := hb
  simp

/-- Checkerboards of the same size and different tile sizes differ in the pixel
in column `r₁`, row 0, where `r₁` is the smaller tile size. -/
theorem checkerboard_ne_of_lt (w h r₁ r₂ : Nat) (h1 : 1 ≤ r₁) (h12 : r₁ < r₂) (hw : r₁ < w)
    (hh : 1 ≤ h) : checkerboard w h r₁ ≠ checkerboard w h r₂ := by
  intro heq
  have hk : 3 * r₁ < 3 * w * h := by
    have : 3 * w * 1 ≤ 3 * w * h := Nat.mul_le_mul_left _ hh
    omega
  have e1 := checkerboard_get w h r₁ (3 * r₁) hk
  have e2 := checkerboard_get w h r₂ (3 * r₁) hk
  rw [heq, e2] at e1
  have hmod : 3 * r₁ % (3 * w) = 3 * r₁ := Nat.mod_eq_of_lt (by omega)
  have hdiv : 3 * r₁ / (3 * w) = 0 := Nat.div_eq_of_lt (by omega)
  have hx : 3 * r₁ / 3 = r₁ := by omega
  rw [hmod, hdiv, hx] at e1
  simp only [Option.some.injEq, checker, Nat.zero_div, add_zero] at e1
  rw [Nat.div_self (by omega), Nat.div_eq_of_lt h12] at e1
  simp at e1

/-- The number of bytes of a checkerboard. -/
theorem checkerboard_length (w h r : Nat) : (checkerboard w h r).length = 3 * w * h := by
  simp [checkerboard]

/-- Reading a list back offset by offset. -/
theorem map_getD_range (mem : List (Option Nat)) :
    (List.range mem.length).map (fun i => mem.getD i none) = mem := by
  apply List.ext_getElem
  · simp
  · intro i h1 h2
    simp [List.getD_eq_getElem?_getD, List.getElem?_eq_getElem h2]

/-- With rows that are a multiple of 4 bytes long, or with at most one row,
`glTexImage2D` reads exactly the `3 * W * H` bytes of the buffer. -/
theorem unpack_eq_self (W H : Nat) (mem : List (Option Nat)) (hlen : mem.length = 3 * W * H)
    (hal : 3 * W % 4 = 0 ∨ H ≤ 1) : unpack W H mem = mem := by
  have key : ∀ i, i < 3 * W * H → (i / (3 * W)) * rowStride W + i % (3 * W) = i := by
    intro i hi
    rcases hal with h4 | h1
    · have hs : rowStride (W : Int) = 3 * W := by
        simp only [rowStride, Int.toNat_ofNat, unpackAlignment]
        omega
      rw [hs]
      exact Nat.div_add_mod' i (3 * W)
    · have hH : H = 1 := by
        rcases Nat.eq_zero_or_pos H with h0 | h0
        · subst h0; simp at hi
        · omega
      subst hH
      rw [Nat.mul_one] at hi
      rw [Nat.div_eq_of_lt hi, Nat.mod_eq_of_lt hi]
      simp
  have e : unpack W H mem = (List.range mem.length).map (fun i => mem.getD i none) := by
    simp only [unpack, Int.toNat_ofNat, hlen]
    apply List.map_congr_left
    intro i hi
    rw [List.mem_range] at hi
    rw [key i hi]
  rw [e, map_getD_range]

/-- For a 1 by 2 image the last byte is read from offset 6, behind a buffer of 6
bytes. -/
theorem unpack_one_by_two (mem : List (Option Nat)) (hlen : mem.length = 6) :
    (unpack 1 2 mem)[5]? = some none := by
  have h6 : mem[6]? = none := List.getElem?_eq_none (by omega)
  simp [unpack, rowStride, unpackAlignment, List.getElem?_range, List.getD_eq_getElem?_getD, h6]

/-! From here on the pixel loops and the checkerboards are used through the
lemmas above only. -/

attribute [irreducible] fillPixels checkerboard

/-! ## Calls and their traces -/

theorem issued_append (s s' : State) (cs : List Cmd) (h : s'.trace = s.trace ++ cs) :
    issued s s' = cs := by
  simp [issued, h]

/-- The state `createProgram` leaves. -/
theorem createProgram_snd (d : Driver) (s : State) :
    (createProgram d s).2
      = { s with tick := s.tick + 4, trace := s.trace ++ programCalls d s.tick } := by
  by_cases h : GL_FALSE = d.linkStatus (s.tick + 3) <;>
    simp [createProgram, programCalls, emit, h]

/-- The handle `createProgram` returns. -/
theorem createProgram_fst (d : Driver) (s : State) :
    (createProgram d s).1 = programHandle d s.tick := by
  by_cases h : GL_FALSE = d.linkStatus (s.tick + 3) <;>
    simp [createProgram, programHandle, emit, h]

/-- The state `setupGraphicsEntry` leaves. -/
theorem setupGraphicsEntry_eq (w h : Int) (s : State) :
    setupGraphicsEntry w h s
      = { s with width := w, height := h, trace := s.trace ++ entryCalls } := by
  simp [setupGraphicsEntry, printGLString, entryCalls, emit, emits]

/-- The result of `createTexture` for arguments in range. -/
theorem createTexture_eq (d : Driver) (ref : TexRef) (W H R : Nat) (hR : 1 ≤ R) (s : State) :
    createTexture d ref W H R s
      = .ok (ref.set (d.textureName s.tick)
          { s with tick := s.tick + 1,
                   trace := s.trace ++ textureCalls (d.textureName s.tick) W H (checkerboard W H R) }) := by
  obtain ⟨buf, hrun, hbytes⟩ := fillPixels_bytes W H R hR
  unfold createTexture
  rw [hrun]
  cases ref <;> simp [emit, TexRef.set, TexRef.get, textureCalls, hbytes]

/-- The result of `SetupFramebuffer`. -/
theorem SetupFramebuffer_eq (d : Driver) (tex : Nat) (w h : Int) (s : State) :
    SetupFramebuffer d tex w h s
      = if s.fb = 0 then
          (decide (d.framebufferStatus (s.tick + 1) = GL_FRAMEBUFFER_COMPLETE),
            { s with fb := d.framebufferName s.tick, tick := s.tick + 2,
                     trace := s.trace ++ framebufferCalls d tex s.tick })
        else (true, s) := by
  by_cases hfb : s.fb = 0
  · by_cases hst : d.framebufferStatus (s.tick + 1) = GL_FRAMEBUFFER_COMPLETE <;>
      simp [SetupFramebuffer, framebufferCalls, emit, hfb, hst]
  · simp [SetupFramebuffer, hfb]

/-- The result of the loop in line 198 of `setupGraphics`. -/
theorem aniTexLoop_eq (d : Driver) (s : State) :
    forLoop (aniTexBody d) 25 1 25 0 s
      = .ok { s with aniTex := fun i => if i < 25 then d.textureName (s.tick + i) else s.aniTex i,
                     tick := s.tick + 25,
                     trace := s.trace ++ aniTexCalls d s.tick 25 } := by
  obtain ⟨s', hrun, hI⟩ :=
    forLoop_inv (aniTexBody d) 25 1 (by norm_num) 25
      (fun k t => t = { s with
        aniTex := fun i => if i < k then d.textureName (s.tick + i) else s.aniTex i,
        tick := s.tick + k,
        trace := s.trace ++ aniTexCalls d s.tick k })
      0 25 s (by norm_num) (le_refl _)
      (by
        intro k t hk ht
        subst ht
        have hi : (0 : Int) + (k : Int) * 1 = (k : Int) := by ring
        have hlt : (0 : Int) ≤ (k : Int) ∧ (k : Int) < 25 := ⟨by positivity, by exact_mod_cast hk⟩
        have hct := createTexture_eq d (.aniTex k) 240 240 (3 + k) (by omega)
          { s with
            aniTex := fun i => if i < k then d.textureName (s.tick + i) else s.aniTex i,
            tick := s.tick + k,
            trace := s.trace ++ aniTexCalls d s.tick k }
        push_cast at hct
        refine ⟨_, ?_, rfl⟩
        rw [hi]
        simp only [aniTexBody, hlt, and_self, if_true, Int.toNat_ofNat]
        rw [hct]
        simp only [TexRef.set, Except.ok.injEq, State.mk.injEq, true_and]
        refine ⟨?_, by ring, ?_⟩
        · funext i
          simp only [Function.update_apply]
          by_cases h1 : i = k
          · subst h1; simp
          · by_cases h2 : i < k
            · simp [h1, h2, Nat.lt_succ_of_lt h2]
            · simp [h1, h2, show ¬ i < k + 1 by omega]
        · simp [aniTexCalls, List.range_succ, List.flatMap_append, List.append_assoc])
      (by simp [aniTexCalls])
  rw [hrun, hI]

/-- Sequencing after a step that succeeded. -/
theorem ok_bind {α β : Type} (x : α) (f : α → Except Fault β) :
    (Except.ok x >>= f) = f x := rfl

/-- Sequencing after a step that faulted. -/
theorem error_bind {α β : Type} (e : Fault) (f : α → Except Fault β) :
    ((Except.error e : Except Fault α) >>= f) = Except.error e := rfl

/-- The result of `setupGraphics`: it never faults, and it returns `false` exactly
on the path where `createProgram` returned `0`. -/
theorem setupGraphics_eq (d : Driver) (w h : Int) (s : State) :
    setupGraphics d w h s
      = if programHandle d s.tick = 0 then .ok (false, setupFailed d w h s)
        else .ok (true, setupDone d w h s) := by
  have h6 : ∀ t, createTexture d .tex tw th 6 t = .ok (TexRef.set .tex (d.textureName t.tick)
          { t with tick := t.tick + 1,
                   trace := t.trace ++ textureCalls (d.textureName t.tick) tw th (checkerboard 240 240 6) }) := by
    intro t
    have := createTexture_eq d .tex 240 240 6 (by norm_num) t
    push_cast at this
    exact this
  unfold setupGraphics
  simp only [createProgram_fst, createProgram_snd, setupGraphicsEntry_eq]
  by_cases hp : programHandle d s.tick = 0
  · simp [hp, emit, setupFailed, List.append_assoc, pure, Except.pure]
  · rewrite [if_neg hp, if_neg hp]
    rewrite [h6, ok_bind, aniTexLoop_eq, ok_bind, SetupFramebuffer_eq]
    by_cases hfb : s.fb = 0
    · simp [hfb, emit, emits, checkGlError, TexRef.set, setupDone, setupCalls,
        List.append_assoc, Nat.add_assoc, pure, Except.pure]
    · simp [hfb, emit, emits, checkGlError, TexRef.set, setupDone, setupCalls,
        List.append_assoc, Nat.add_assoc, pure, Except.pure]

/-- The result of `blitTexture`: it faults exactly when `time` is not a valid
index of `aniTex`. -/
theorem blitTexture_eq (d : Driver) (s : State) :
    blitTexture d s
      = if 0 ≤ s.time ∧ s.time < 25 then
          .ok { s with time := (s.time + 1).tmod 25, tick := s.tick + 7,
                       trace := s.trace ++ blitCalls d s }
        else .error .outOfBounds := by
  by_cases ht : 0 ≤ s.time ∧ s.time < 25
  · by_cases hst : d.framebufferStatus (s.tick + 4) = GL_FRAMEBUFFER_COMPLETE <;>
      simp [blitTexture, blitCalls, emit, emits, checkGlError, ht, hst, List.append_assoc,
        Nat.add_assoc]
  · simp [blitTexture, emit, emits, checkGlError, ht]

/-- The result of `renderFrame`: it faults exactly when `time` is not a valid
index of `aniTex`. -/
theorem renderFrame_eq (d : Driver) (s : State) :
    renderFrame d s
      = if 0 ≤ s.time ∧ s.time < 25 then .ok (renderDone d s) else .error .outOfBounds := by
  unfold renderFrame
  by_cases hg : (F32.lit 1 1).units < (s.grey.add (F32.lit 1 1000)).units
  · simp only [hg, if_true, blitTexture_eq]
    by_cases ht : 0 ≤ s.time ∧ s.time < 25
    · simp [ok_bind, emit, emits, checkGlError, ht, hg, renderDone, renderCalls, drawCalls,
        blitCalls, nextGrey, List.append_assoc, Nat.add_assoc, pure, Except.pure]
    · simp [emit, ht, error_bind]
  · simp only [hg, if_false, blitTexture_eq]
    by_cases ht : 0 ≤ s.time ∧ s.time < 25
    · simp [ok_bind, emit, emits, checkGlError, ht, hg, renderDone, renderCalls, drawCalls,
        blitCalls, nextGrey, List.append_assoc, Nat.add_assoc, pure, Except.pure]
    · simp [emit, ht, error_bind]

/-! ## Runs of `renderFrame` -/

/-- `time` stays a valid index of `aniTex`. -/
theorem renderDone_time_range (d : Driver) (s : State) (ht : 0 ≤ s.time ∧ s.time < 25) :
    0 ≤ (renderDone d s).time ∧ (renderDone d s).time < 25 := by
  simp only [renderDone]
  rw [Int.tmod_eq_emod (by omega) (by norm_num)]
  omega

theorem iterate_time_range (d : Driver) (s : State) (ht : 0 ≤ s.time ∧ s.time < 25) (n : Nat) :
    0 ≤ ((renderDone d)^[n] s).time ∧ ((renderDone d)^[n] s).time < 25 := by
  induction n with
  | zero => simpa using ht
  | succ n ih =>
    rw [Function.iterate_succ_apply']
    exact renderDone_time_range d _ ih

/-- A run of `renderFrame` calls never faults when it starts with `time` a valid
index of `aniTex`. -/
theorem frames_eq (d : Driver) (s : State) (ht : 0 ≤ s.time ∧ s.time < 25) (n : Nat) :
    frames d n s = .ok ((renderDone d)^[n] s) := by
  induction n with
  | zero => rfl
  | succ n ih =>
    rw [Function.iterate_succ_apply']
    simp only [frames]
    rw [ih, ok_bind, renderFrame_eq, if_pos (iterate_time_range d s ht n)]

/-- The static `time` after `n` frames. -/
theorem iterate_time (d : Driver) (s : State) (ht : 0 ≤ s.time ∧ s.time < 25) (n : Nat) :
    ((renderDone d)^[n] s).time = (s.time + n) % 25 := by
  induction n with
  | zero =>
    simp only [Function.iterate_zero, id_eq, Nat.cast_zero, add_zero]
    omega
  | succ n ih =>
    rw [Function.iterate_succ_apply']
    have hr := iterate_time_range d s ht n
    simp only [renderDone]
    rw [Int.tmod_eq_emod (by omega) (by norm_num), ih]
    push_cast
    omega

/-- The value of `grey` one frame later: one more addition, and `0.0f` after
the value reached by 1000 additions. -/
theorem nextGrey_greyAt (n : Nat) : nextGrey (greyAt (n % 1001)) = greyAt ((n + 1) % 1001) := by
  have hlt : n % 1001 < 1001 := Nat.mod_lt _ (by norm_num)
  by_cases h : n % 1001 = 1000
  · have h1 : (n + 1) % 1001 = 0 := by omega
    rw [h, h1]
    unfold nextGrey
    rw [if_pos greyAt_wrap]
    rfl
  · have h1 : (n + 1) % 1001 = n % 1001 + 1 := by omega
    rw [h1]
    unfold nextGrey
    rw [← greyAt_succ, if_neg (greyAt_step (n % 1001) (by omega)).2]

/-- The static `grey` after `n` frames. -/
theorem iterate_grey (d : Driver) (s : State) (hg : s.grey = ⟨0⟩) (n : Nat) :
    ((renderDone d)^[n] s).grey = greyAt (n % 1001) := by
  induction n with
  | zero =>
    rw [Function.iterate_zero, id_eq, hg]
    exact F32.lit_zero.symm
  | succ n ih =>
    rw [Function.iterate_succ_apply']
    simp only [renderDone]
    rw [ih, nextGrey_greyAt]

/-- The calls made by a run of `renderFrame` calls. -/
theorem iterate_trace (d : Driver) (s : State) (n : Nat) :
    ((renderDone d)^[n] s).trace = s.trace ++ framesCalls d s n := by
  induction n with
  | zero => simp [framesCalls]
  | succ n ih =>
    rw [Function.iterate_succ_apply']
    simp only [renderDone, framesCalls]
    rw [ih, List.append_assoc]

/-! ## What the call sequences contain -/

/-- Error polls and log lines do not count for a predicate that rejects them. -/
theorem drainErrors_countP (p : Cmd → Bool) (h1 : ∀ e, p (.glGetError e) = false)
    (h2 : ∀ l f, p (.log l f) = false) (es : List Nat) :
    List.countP p (drainErrors es) = 0 := by
  induction es with
  | nil => simp [drainErrors, h1]
  | cons e es ih =>
    unfold drainErrors
    split_ifs
    · simp [h1]
    · simp [h1, h2, ih]

/-- Error polls and log lines contribute nothing to a `flatMap` that maps them
to `[]`. -/
theorem drainErrors_flatMap {β : Type} (f : Cmd → List β) (h1 : ∀ e, f (.glGetError e) = [])
    (h2 : ∀ l m, f (.log l m) = []) (es : List Nat) : (drainErrors es).flatMap f = [] := by
  induction es with
  | nil => simp [drainErrors, h1]
  | cons e es ih =>
    unfold drainErrors
    split_ifs
    · simp [h1]
    · simp [h1, h2, ih]

/-- Error polls and log lines contribute nothing to a `filterMap` that maps them
to `none`. -/
theorem drainErrors_filterMap {β : Type} (f : Cmd → Option β) (h1 : ∀ e, f (.glGetError e) = none)
    (h2 : ∀ l m, f (.log l m) = none) (es : List Nat) : (drainErrors es).filterMap f = [] := by
  induction es with
  | nil => simp [drainErrors, h1]
  | cons e es ih =>
    unfold drainErrors
    split_ifs
    · simp [h1]
    · simp [h1, h2, ih]

/-- Error polls and log lines do not move a fold whose step ignores them. -/
theorem drainErrors_foldl {β : Type} (f : β → Cmd → β) (h1 : ∀ b e, f b (.glGetError e) = b)
    (h2 : ∀ b l m, f b (.log l m) = b) (es : List Nat) (b : β) :
    (drainErrors es).foldl f b = b := by
  induction es with
  | nil => simp [drainErrors, h1]
  | cons e es ih =>
    unfold drainErrors
    split_ifs
    · simp [h1]
    · simp [h1, h2, ih]

@[simp] theorem drainErrors_isBlit (es : List Nat) :
    List.countP Cmd.isBlit (drainErrors es) = 0 :=
  drainErrors_countP _ (fun _ => rfl) (fun _ _ => rfl) es

@[simp] theorem drainErrors_isGenFramebuffers (es : List Nat) :
    List.countP Cmd.isGenFramebuffers (drainErrors es) = 0 :=
  drainErrors_countP _ (fun _ => rfl) (fun _ _ => rfl) es

@[simp] theorem drainErrors_isGenTextures (es : List Nat) :
    List.countP Cmd.isGenTextures (drainErrors es) = 0 :=
  drainErrors_countP _ (fun _ => rfl) (fun _ _ => rfl) es

@[simp] theorem drainErrors_isAttach (es : List Nat) :
    List.countP Cmd.isAttach (drainErrors es) = 0 :=
  drainErrors_countP _ (fun _ => rfl) (fun _ _ => rfl) es

@[simp] theorem drainErrors_isAttachColor0 (es : List Nat) :
    List.countP Cmd.isAttachColor0 (drainErrors es) = 0 :=
  drainErrors_countP _ (fun _ => rfl) (fun _ _ => rfl) es

@[simp] theorem drainErrors_created (es : List Nat) : created (drainErrors es) = [] :=
  drainErrors_flatMap _ (fun _ => rfl) (fun _ _ => rfl) es

@[simp] theorem drainErrors_clearReds (es : List Nat) : clearReds (drainErrors es) = [] :=
  drainErrors_filterMap _ (fun _ => rfl) (fun _ _ => rfl) es

@[simp] theorem drainErrors_exec (es : List Nat) (g : Gpu) :
    (drainErrors es).foldl Gpu.exec g = g :=
  drainErrors_foldl _ (fun _ _ => rfl) (fun _ _ _ => rfl) es g

@[simp] theorem drainErrors_uploadStep (es : List Nat) (st : Nat × List Upload) :
    (drainErrors es).foldl uploadStep st = st :=
  drainErrors_foldl _ (fun _ _ => rfl) (fun _ _ _ => rfl) es st

theorem created_append (a b : List Cmd) : created (a ++ b) = created a ++ created b := by
  simp [created]

theorem clearReds_append (a b : List Cmd) : clearReds (a ++ b) = clearReds a ++ clearReds b := by
  simp [clearReds]

theorem created_cons (c : Cmd) (cs : List Cmd) : created (c :: cs) = c.creates ++ created cs := by
  simp [created]

theorem clearReds_cons (c : Cmd) (cs : List Cmd) :
    clearReds (c :: cs) = c.clearRed.toList ++ clearReds cs := by
  cases h : c.clearRed <;> simp [clearReds, List.filterMap_cons, h]

@[simp] theorem created_nil : created [] = [] := rfl

@[simp] theorem clearReds_nil : clearReds [] = [] := rfl

/-- One frame makes exactly one `glBlitFramebuffer` call. -/
theorem renderCalls_isBlit (d : Driver) (s : State) :
    List.countP Cmd.isBlit (renderCalls d s) = 1 := by
  by_cases hst : d.framebufferStatus (s.tick + 4) = GL_FRAMEBUFFER_COMPLETE <;>
    simp [renderCalls, blitCalls, drawCalls, List.countP_append, List.countP_cons, Cmd.isBlit, hst]

/-- One frame makes exactly one `glClearColor` call, with the new `grey`. -/
theorem renderCalls_clearReds (d : Driver) (s : State) :
    clearReds (renderCalls d s) = [nextGrey s.grey] := by
  by_cases hst : d.framebufferStatus (s.tick + 4) = GL_FRAMEBUFFER_COMPLETE <;>
    simp [renderCalls, blitCalls, drawCalls, clearReds_append, clearReds_cons, Cmd.clearRed, hst]

/-- One frame creates no GPU object. -/
theorem renderCalls_created (d : Driver) (s : State) : created (renderCalls d s) = [] := by
  by_cases hst : d.framebufferStatus (s.tick + 4) = GL_FRAMEBUFFER_COMPLETE <;>
    simp [renderCalls, blitCalls, drawCalls, created_append, created_cons, Cmd.creates, hst]

/-- One frame attaches nothing to colour attachment 0. -/
theorem renderCalls_isAttachColor0 (d : Driver) (s : State) :
    List.countP Cmd.isAttachColor0 (renderCalls d s) = 0 := by
  by_cases hst : d.framebufferStatus (s.tick + 4) = GL_FRAMEBUFFER_COMPLETE <;>
    simp [renderCalls, blitCalls, drawCalls, List.countP_append, List.countP_cons,
      Cmd.isAttachColor0, hst]

/-- One frame makes exactly one `glFramebufferTexture2D` call. -/
theorem renderCalls_isAttach (d : Driver) (s : State) :
    List.countP Cmd.isAttach (renderCalls d s) = 1 := by
  by_cases hst : d.framebufferStatus (s.tick + 4) = GL_FRAMEBUFFER_COMPLETE <;>
    simp [renderCalls, blitCalls, drawCalls, List.countP_append, List.countP_cons,
      Cmd.isAttach, hst]

/-- One frame generates no framebuffer object. -/
theorem renderCalls_isGenFramebuffers (d : Driver) (s : State) :
    List.countP Cmd.isGenFramebuffers (renderCalls d s) = 0 := by
  by_cases hst : d.framebufferStatus (s.tick + 4) = GL_FRAMEBUFFER_COMPLETE <;>
    simp [renderCalls, blitCalls, drawCalls, List.countP_append, List.countP_cons,
      Cmd.isGenFramebuffers, hst]

/-- The effect of one frame on the framebuffer attachments: the texture
`aniTex[time]` becomes colour attachment 1 of `fb` (when `fb` is a framebuffer
object), nothing else changes. -/
theorem renderCalls_exec (d : Driver) (s : State) (g : Gpu) :
    ((renderCalls d s).foldl Gpu.exec g).attached
      = fun f a => if s.fb ≠ 0 ∧ f = s.fb ∧ a = GL_COLOR_ATTACHMENT1 then s.aniTex s.time.toNat
          else g.attached f a := by
  by_cases hfb : s.fb = 0 <;>
  by_cases hst : d.framebufferStatus (s.tick + 4) = GL_FRAMEBUFFER_COMPLETE <;>
    simp [renderCalls, blitCalls, drawCalls, List.foldl_append, Gpu.exec, hst, hfb]

/-- The texture calls contain nothing a predicate counts that rejects each of
them. -/
theorem aniTexCalls_countP (p : Cmd → Bool) (d : Driver) (t k : Nat)
    (hp : ∀ name px, List.countP p (textureCalls name tw th px) = 0) :
    List.countP p (aniTexCalls d t k) = 0 := by
  induction k with
  | zero => simp [aniTexCalls]
  | succ k ih =>
    have : aniTexCalls d t (k + 1) = aniTexCalls d t k
        ++ textureCalls (d.textureName (t + k)) tw th (checkerboard 240 240 (3 + k)) := by
      simp [aniTexCalls, List.range_succ, List.flatMap_append]
    rw [this, List.countP_append, ih, hp]

/-- Each round of the loop in line 198 generates one texture. -/
theorem aniTexCalls_isGenTextures (d : Driver) (t k : Nat) :
    List.countP Cmd.isGenTextures (aniTexCalls d t k) = k := by
  induction k with
  | zero => simp [aniTexCalls]
  | succ k ih =>
    have : aniTexCalls d t (k + 1) = aniTexCalls d t k
        ++ textureCalls (d.textureName (t + k)) tw th (checkerboard 240 240 (3 + k)) := by
      simp [aniTexCalls, List.range_succ, List.flatMap_append]
    rw [this, List.countP_append, ih]
    simp [textureCalls, Cmd.isGenTextures, List.countP_cons]

/-- The texture calls leave the framebuffer bindings and attachments alone. -/
theorem aniTexCalls_exec (d : Driver) (t k : Nat) (g : Gpu) :
    (aniTexCalls d t k).foldl Gpu.exec g = g := by
  induction k with
  | zero => simp [aniTexCalls]
  | succ k ih =>
    have : aniTexCalls d t (k + 1) = aniTexCalls d t k
        ++ textureCalls (d.textureName (t + k)) tw th (checkerboard 240 240 (3 + k)) := by
      simp [aniTexCalls, List.range_succ, List.flatMap_append]
    rw [this, List.foldl_append, ih]
    simp [textureCalls, Gpu.exec]

theorem programCalls_exec (d : Driver) (t : Nat) (g : Gpu) :
    (programCalls d t).foldl Gpu.exec g = g := by
  by_cases h : GL_FALSE = d.linkStatus (t + 3) <;> simp [programCalls, Gpu.exec, h]

theorem programCalls_countP (p : Cmd → Bool) (d : Driver) (t : Nat)
    (h1 : ∀ k r, p (.glCreateShader k r) = false)
    (h2 : ∀ a b c, p (.glShaderSource a b c) = false)
    (h3 : ∀ a, p (.glCompileShader a) = false)
    (h4 : ∀ a b, p (.log a b) = false)
    (h5 : ∀ a, p (.glCreateProgram a) = false)
    (h6 : ∀ a b, p (.glAttachShader a b) = false)
    (h7 : ∀ a, p (.glLinkProgram a) = false)
    (h8 : ∀ a b c, p (.glGetProgramiv a b c) = false)
    (h9 : ∀ a b, p (.glGetProgramInfoLog a b) = false)
    (h10 : ∀ a, p (.glDeleteProgram a) = false)
    (h11 : ∀ a, p (.glDeleteShader a) = false) :
    List.countP p (programCalls d t) = 0 := by
  by_cases h : GL_FALSE = d.linkStatus (t + 3) <;>
    simp [programCalls, List.countP_append, List.countP_cons, h, h1, h2, h3, h4, h5, h6, h7, h8,
      h9, h10, h11]

/-- The effect of the calls of a successful `setupGraphics` on the attachments. -/
theorem setupCalls_exec (d : Driver) (w h : Int) (s : State) (g : Gpu) :
    (setupCalls d w h s).foldl Gpu.exec g
      = if s.fb = 0 then
          (framebufferCalls d (d.textureName (s.tick + 5)) (s.tick + 31)).foldl Gpu.exec g
        else g := by
  by_cases hfb : s.fb = 0 <;>
    simp [setupCalls, hfb, List.foldl_append, programCalls_exec, aniTexCalls_exec] <;>
    simp [entryCalls, textureCalls, Gpu.exec]

/-- A successful `setupGraphics` generates 26 textures. -/
theorem setupCalls_isGenTextures (d : Driver) (w h : Int) (s : State) :
    List.countP Cmd.isGenTextures (setupCalls d w h s) = 26 := by
  have hprog : List.countP Cmd.isGenTextures (programCalls d s.tick) = 0 :=
    programCalls_countP _ d _ (fun _ _ => rfl) (fun _ _ _ => rfl) (fun _ => rfl)
      (fun _ _ => rfl) (fun _ => rfl) (fun _ _ => rfl) (fun _ => rfl) (fun _ _ _ => rfl)
      (fun _ _ => rfl) (fun _ => rfl) (fun _ => rfl)
  by_cases hfb : s.fb = 0 <;>
  by_cases hst : d.framebufferStatus (s.tick + 31 + 1) = GL_FRAMEBUFFER_COMPLETE <;>
    simp [setupCalls, hfb, hst, List.countP_append, hprog, aniTexCalls_isGenTextures, entryCalls,
      textureCalls, framebufferCalls, List.countP_cons, Cmd.isGenTextures]

/-- A successful `setupGraphics` generates a framebuffer object exactly when
there is none yet. -/
theorem setupCalls_isGenFramebuffers (d : Driver) (w h : Int) (s : State) :
    List.countP Cmd.isGenFramebuffers (setupCalls d w h s) = if s.fb = 0 then 1 else 0 := by
  have hprog : List.countP Cmd.isGenFramebuffers (programCalls d s.tick) = 0 :=
    programCalls_countP _ d _ (fun _ _ => rfl) (fun _ _ _ => rfl) (fun _ => rfl)
      (fun _ _ => rfl) (fun _ => rfl) (fun _ _ => rfl) (fun _ => rfl) (fun _ _ _ => rfl)
      (fun _ _ => rfl) (fun _ => rfl) (fun _ => rfl)
  have hani : List.countP Cmd.isGenFramebuffers (aniTexCalls d (s.tick + 6) 25) = 0 :=
    aniTexCalls_countP _ d _ _ (fun _ _ => by simp [textureCalls, List.countP_cons, Cmd.isGenFramebuffers])
  by_cases hfb : s.fb = 0 <;>
  by_cases hst : d.framebufferStatus (s.tick + 31 + 1) = GL_FRAMEBUFFER_COMPLETE <;>
    simp [setupCalls, hfb, hst, List.countP_append, hprog, hani, entryCalls,
      textureCalls, framebufferCalls, List.countP_cons, Cmd.isGenFramebuffers]

/-- A successful `setupGraphics` attaches to colour attachment 0 exactly when
there is no framebuffer object yet. -/
theorem setupCalls_isAttachColor0 (d : Driver) (w h : Int) (s : State) :
    List.countP Cmd.isAttachColor0 (setupCalls d w h s) = if s.fb = 0 then 1 else 0 := by
  have hprog : List.countP Cmd.isAttachColor0 (programCalls d s.tick) = 0 :=
    programCalls_countP _ d _ (fun _ _ => rfl) (fun _ _ _ => rfl) (fun _ => rfl)
      (fun _ _ => rfl) (fun _ => rfl) (fun _ _ => rfl) (fun _ => rfl) (fun _ _ _ => rfl)
      (fun _ _ => rfl) (fun _ => rfl) (fun _ => rfl)
  have hani : List.countP Cmd.isAttachColor0 (aniTexCalls d (s.tick + 6) 25) = 0 :=
    aniTexCalls_countP _ d _ _ (fun _ _ => by simp [textureCalls, List.countP_cons, Cmd.isAttachColor0])
  by_cases hfb : s.fb = 0 <;>
  by_cases hst : d.framebufferStatus (s.tick + 31 + 1) = GL_FRAMEBUFFER_COMPLETE <;>
    simp [setupCalls, hfb, hst, List.countP_append, hprog, hani, entryCalls,
      textureCalls, framebufferCalls, List.countP_cons, Cmd.isAttachColor0]

/-- A run of `n` frames makes `n` calls of `glBlitFramebuffer`. -/
theorem framesCalls_isBlit (d : Driver) (s : State) (n : Nat) :
    List.countP Cmd.isBlit (framesCalls d s n) = n := by
  induction n with
  | zero => simp [framesCalls]
  | succ n ih => simp [framesCalls, List.countP_append, ih, renderCalls_isBlit]

/-- The clear values of a run of `n` frames that starts with `grey` at `0.0f`. -/
theorem framesCalls_clearReds (d : Driver) (s : State) (hg : s.grey = ⟨0⟩) (n : Nat) :
    clearReds (framesCalls d s n) = (List.range n).map (fun k => greyAt ((k + 1) % 1001)) := by
  induction n with
  | zero => simp [framesCalls]
  | succ n ih =>
    simp [framesCalls, clearReds_append, ih, renderCalls_clearReds, iterate_grey d s hg,
      nextGrey_greyAt, List.range_succ]

/-- A run of frames creates no GPU object. -/
theorem framesCalls_created (d : Driver) (s : State) (n : Nat) :
    created (framesCalls d s n) = [] := by
  induction n with
  | zero => simp [framesCalls]
  | succ n ih => simp [framesCalls, created_append, ih, renderCalls_created]

/-- The animation cursor after `n` frames from a state in which it is `0`. -/
theorem frames_cursor (d : Driver) (s : State) (h0 : s.time = 0) (n : Nat) :
    ∃ s', frames d n s = .ok s' ∧ s'.time = ((n % 25 : Nat) : Int) ∧
      List.countP Cmd.isBlit (issued s s') = n := by
  have ht : 0 ≤ s.time ∧ s.time < 25 := by rw [h0]; decide
  refine ⟨_, frames_eq d s ht n, ?_, ?_⟩
  · rw [iterate_time d s ht n, h0]
    push_cast
    simp
  · rw [issued_append _ _ _ (iterate_trace d s n), framesCalls_isBlit]

/-- A larger number of units is a larger number. -/
theorem F32.toRat_lt (a b : F32) (h : a.units < b.units) : a.toRat < b.toRat := by
  unfold F32.toRat
  exact div_lt_div_of_pos_right (by exact_mod_cast h) (by positivity)

/-- The literal `1.0f` stands for 1. -/
theorem F32.toRat_one : (F32.lit 1 1).toRat = 1 := by
  rw [F32.lit_one, F32.toRat_nat, Nat.cast_pow, Nat.cast_ofNat]
  exact div_self (by positivity)

/-! ## Sequences of calls once the render target exists -/

theorem gpuAfter_append (a b : List Cmd) : gpuAfter (a ++ b) = b.foldl Gpu.exec (gpuAfter a) := by
  simp [gpuAfter]

/-- One call, made when `fb` exists, keeps `fb`, generates no framebuffer object
and leaves colour attachment 0 of every framebuffer object alone. -/
theorem Call.run_spec (d : Driver) (c : Call) (s : State) (hfb : s.fb ≠ 0)
    (ht : 0 ≤ s.time ∧ s.time < 25) :
    ∃ s' new, c.run d s = .ok s' ∧ s'.trace = s.trace ++ new ∧ s'.fb = s.fb ∧
      (0 ≤ s'.time ∧ s'.time < 25) ∧
      List.countP Cmd.isGenFramebuffers new = 0 ∧ List.countP Cmd.isAttachColor0 new = 0 ∧
      ∀ g f, (new.foldl Gpu.exec g).attached f GL_COLOR_ATTACHMENT0
        = g.attached f GL_COLOR_ATTACHMENT0 := by
  cases c with
  | setupGraphics w h =>
    simp only [Call.run]
    rw [setupGraphics_eq]
    by_cases hp : programHandle d s.tick = 0
    · rw [if_pos hp, ok_bind]
      refine ⟨_, _, rfl, rfl, rfl, ht, ?_, ?_, ?_⟩
      · simp [List.countP_append, List.countP_cons, Cmd.isGenFramebuffers, entryCalls,
          programCalls_countP]
      · simp [List.countP_append, List.countP_cons, Cmd.isAttachColor0, entryCalls,
          programCalls_countP]
      · intro g f
        simp [List.foldl_append, programCalls_exec, entryCalls, Gpu.exec]
    · rw [if_neg hp, ok_bind]
      refine ⟨_, setupCalls d w h s, rfl, rfl, ?_, ht, ?_, ?_, ?_⟩
      · simp [setupDone, hfb]
      · rw [setupCalls_isGenFramebuffers, if_neg hfb]
      · rw [setupCalls_isAttachColor0, if_neg hfb]
      · intro g f
        rw [setupCalls_exec, if_neg hfb]
  | SetupFramebuffer tex w h =>
    simp only [Call.run]
    rw [SetupFramebuffer_eq, if_neg hfb]
    exact ⟨s, [], rfl, by simp, rfl, ht, rfl, rfl, fun _ _ => rfl⟩
  | renderFrame =>
    simp only [Call.run]
    rw [renderFrame_eq, if_pos ht]
    refine ⟨_, renderCalls d s, rfl, rfl, rfl, renderDone_time_range d s ht,
      renderCalls_isGenFramebuffers d s, renderCalls_isAttachColor0 d s, ?_⟩
    intro g f
    rw [renderCalls_exec]
    simp

/-- A sequence of calls, made when `fb` exists, keeps `fb`, generates no
framebuffer object and leaves colour attachment 0 of every framebuffer object
alone. -/
theorem runCalls_spec (d : Driver) (calls : List Call) :
    ∀ s : State, s.fb ≠ 0 → (0 ≤ s.time ∧ s.time < 25) →
    ∃ s' new, runCalls d calls s = .ok s' ∧ s'.trace = s.trace ++ new ∧ s'.fb = s.fb ∧
      (0 ≤ s'.time ∧ s'.time < 25) ∧
      List.countP Cmd.isGenFramebuffers new = 0 ∧ List.countP Cmd.isAttachColor0 new = 0 ∧
      ∀ g f, (new.foldl Gpu.exec g).attached f GL_COLOR_ATTACHMENT0
        = g.attached f GL_COLOR_ATTACHMENT0 := by
  induction calls with
  | nil =>
    intro s _ ht
    exact ⟨s, [], rfl, by simp, rfl, ht, rfl, rfl, fun _ _ => rfl⟩
  | cons c cs ih =>
    intro s hfb ht
    obtain ⟨s1, new1, hrun1, htr1, hfb1, ht1, hg1, ha1, he1⟩ := Call.run_spec d c s hfb ht
    obtain ⟨s2, new2, hrun2, htr2, hfb2, ht2, hg2, ha2, he2⟩ := ih s1 (by rw [hfb1]; exact hfb) ht1
    refine ⟨s2, new1 ++ new2, ?_, ?_, by rw [hfb2, hfb1], ht2, ?_, ?_, ?_⟩
    · simp only [runCalls]
      rw [hrun1, ok_bind, hrun2]
    · rw [htr2, htr1, List.append_assoc]
    · rw [List.countP_append, hg1, hg2]
    · rw [List.countP_append, ha1, ha2]
    · intro g f
      rw [List.foldl_append, he2, he1]

/-- C1 (as amended): for every `width ≥ 0`, `height ≥ 0` and tile size `r ≥ 1` the
pixel loops of `createTexture` end without a fault and the buffer they fill holds,
in all three bytes of the pixel in column `x` and row `y`, the value 255 when
`(x / r + y / r) % 2 = 1` and 0 otherwise: the tiles are `r` pixels wide, since the
loop variable `i` that is divided by `3 * r` is the byte offset `3 * x`. -/
theorem createTexture_pixels (w h r : Int) (hw : 0 ≤ w) (hh : 0 ≤ h) (hr : 1 ≤ r) :
    ∃ buf, fillPixels w h r = .ok buf ∧
      ∀ x y c : Nat, (x : Int) < w → (y : Int) < h → c < 3 →
        buf.cell (3 * x + c + y * (3 * w.toNat))
          = [if (x / r.toNat + y / r.toNat) % 2 = 1 then 255 else 0] := by
  lift w to Nat using hw
  lift h to Nat using hh
  lift r to Nat using (by omega : (0 : Int) ≤ r)
  obtain ⟨buf, hrun, hpix⟩ := fillPixels_pixel w h r (by exact_mod_cast hr)
  refine ⟨buf, hrun, ?_⟩
  intro x y c hx hy hc
  simpa [checker] using hpix x y c (by exact_mod_cast hx) (by exact_mod_cast hy) hc

/-- Witness for C1 (as amended): the 12 by 12 grid with tile size 2. -/
theorem createTexture_pixels_witness :
    ∃ buf, fillPixels 12 12 2 = .ok buf ∧
      ∀ x y c : Nat, (x : Int) < 12 → (y : Int) < 12 → c < 3 →
        buf.cell (3 * x + c + y * (3 * (12 : Int).toNat))
          = [if (x / (2 : Int).toNat + y / (2 : Int).toNat) % 2 = 1 then 255 else 0] :=
  createTexture_pixels 12 12 2 (by decide) (by decide) (by decide)

/-- C1 fails as stated: on the 12 by 12 grid with tile size 2 the red byte of the
pixel in column 2, row 0 (byte offset 6) holds 255, while
`(2 / (3 * 2) + 0 / 2) % 2 = 0` asks for 0. -/
theorem tile_width_counterexample :
    ∃ buf, fillPixels 12 12 2 = .ok buf ∧ buf.cell (3 * 2 + 0 + 0 * (3 * 12)) = [255] ∧
      specChecker 2 2 0 = 0 := by
  obtain ⟨buf, hrun, hpix⟩ := fillPixels_pixel 12 12 2 (by decide)
  refine ⟨buf, hrun, ?_, by decide⟩
  have := hpix 2 0 0 (by decide) (by decide) (by decide)
  rw [this]
  decide

/-- C10 (as amended): for every `width ≥ 0`, `height ≥ 0` and `r ≥ 1` the pixel
loops of `createTexture` end without a fault (no division by zero, no store
outside `buf[width*3*height]`, both loops terminate), every byte of the buffer
has been written exactly once and nothing outside it has been written, and
`createTexture` returns.  When `3 * width` is a multiple of 4, the value of
`GL_UNPACK_ALIGNMENT`, or there is at most one row, the image `glTexImage2D`
reads is exactly the buffer, so no uninitialised byte is uploaded. -/
theorem createTexture_buffer_safe (w h r : Int) (hw : 0 ≤ w) (hh : 0 ≤ h) (hr : 1 ≤ r) :
    ∃ buf, fillPixels w h r = .ok buf ∧ buf.size = w * 3 * h ∧
      (∀ k : Nat, (k : Int) < w * 3 * h → (buf.cell k).length = 1) ∧
      (∀ k : Nat, w * 3 * h ≤ (k : Int) → buf.cell k = []) ∧
      buf.bytes.length = (w * 3 * h).toNat ∧ (∀ b ∈ buf.bytes, b ≠ none) ∧
      ∀ (d : Driver) (ref : TexRef) (s : State), ∃ s', createTexture d ref w h r s = .ok s' ∧
        (3 * w % 4 = 0 ∨ h ≤ 1 →
          uploads (issued s s') = [⟨ref.get s', w, h, buf.bytes⟩]) := by
  obtain ⟨buf, hrun, hsz, hcell⟩ := fillPixels_spec w h r hw hh hr
  have e : w * 3 * h = ((3 * w.toNat * h.toNat : Nat) : Int) := by
    push_cast
    rw [Int.toNat_of_nonneg hw, Int.toNat_of_nonneg hh]; ring
  have hlen : buf.bytes.length = 3 * w.toNat * h.toNat := by
    simp only [Buf.bytes, List.length_map, List.length_range, hsz, e, Int.toNat_ofNat]
  refine ⟨buf, hrun, hsz, ?_, ?_, ?_, ?_, ?_⟩
  · intro k hk
    rw [e] at hk
    rw [hcell, if_pos (by exact_mod_cast hk)]
    rfl
  · intro k hk
    rw [e] at hk
    rw [hcell, if_neg (by
      have : 3 * w.toNat * h.toNat ≤ k := by exact_mod_cast hk
      omega)]
  · rw [hlen, e, Int.toNat_ofNat]
  · intro b hb
    simp only [Buf.bytes, List.mem_map, List.mem_range] at hb
    obtain ⟨k, hk, rfl⟩ := hb
    rw [hsz, e, Int.toNat_ofNat] at hk
    rw [hcell, if_pos hk]
    simp
  · intro d ref s
    have hun : 3 * w % 4 = 0 ∨ h ≤ 1 → unpack w h buf.bytes = buf.bytes := by
      intro hal
      have := unpack_eq_self w.toNat h.toNat buf.bytes hlen (by omega)
      rw [Int.toNat_of_nonneg hw, Int.toNat_of_nonneg hh] at this
      exact this
    unfold createTexture
    rw [hrun]
    cases ref
    · refine ⟨_, rfl, fun hal => ?_⟩
      simp [issued, emit, TexRef.set, TexRef.get, uploads, uploadStep, hun hal]
    · refine ⟨_, rfl, fun hal => ?_⟩
      simp [issued, emit, TexRef.set, TexRef.get, uploads, uploadStep, hun hal]

/-- Witness for C10 (as amended): a 240 by 240 texture with tile size 6. -/
theorem createTexture_buffer_safe_witness :
    ∃ buf, fillPixels 240 240 6 = .ok buf ∧ buf.size = 240 * 3 * 240 ∧
      (∀ k : Nat, (k : Int) < 240 * 3 * 240 → (buf.cell k).length = 1) ∧
      (∀ b ∈ buf.bytes, b ≠ none) ∧
      ∀ (d : Driver) (ref : TexRef) (s : State), ∃ s', createTexture d ref 240 240 6 s = .ok s' ∧
        uploads (issued s s') = [⟨ref.get s', 240, 240, buf.bytes⟩] :=
  have h := createTexture_buffer_safe 240 240 6 (by decide) (by decide) (by decide)
  h.elim fun buf hb => ⟨buf, hb.1, hb.2.1, hb.2.2.1, hb.2.2.2.2.2.1, fun d ref s =>
    (hb.2.2.2.2.2.2 d ref s).elim fun s' hs => ⟨s', hs.1, hs.2 (Or.inl (by decide))⟩⟩

/-- C10 fails as stated: for a 1 by 2 texture the pixel loops initialise all 6
bytes of the buffer, but `glTexImage2D`, with `GL_UNPACK_ALIGNMENT` at 4, reads
the second row from offset 4 on, so the last byte of the image comes from offset
6, behind the buffer, where no initialised byte is. -/
theorem upload_reads_past_buffer :
    ∃ buf, fillPixels 1 2 1 = .ok buf ∧ buf.bytes.length = 6 ∧ (∀ b ∈ buf.bytes, b ≠ none) ∧
      ∃ s' u, createTexture okDriver .tex 1 2 1 State.init = .ok s' ∧
        uploads (issued State.init s') = [u] ∧ u.pixels[5]? = some none := by
  have hb := fillPixels_bytes 1 2 1 (le_refl 1)
  push_cast at hb
  obtain ⟨buf, hrun, hbytes⟩ := hb
  have hlen : buf.bytes.length = 6 := by rw [hbytes, checkerboard_length]
  refine ⟨buf, hrun, hlen, ?_, ?_⟩
  · rw [hbytes]
    exact checkerboard_ne_none 1 2 1
  · unfold createTexture
    rw [hrun]
    refine ⟨_, ⟨okDriver.textureName State.init.tick, 1, 2, unpack 1 2 buf.bytes⟩, rfl, ?_,
      unpack_one_by_two _ hlen⟩
    simp [issued, emit, TexRef.set, TexRef.get, uploads, uploadStep, State.init]

/-! ## Properties of the per-frame state -/

/-- C2: the static `time` of `blitTexture` is a modulo-25 counter of the frames.
From program start, `setupGraphics` returns (with whatever verdict), and after it
any `n` calls of `renderFrame` all return without an out-of-bounds access to
`aniTex`, make `n` calls of `glBlitFramebuffer` in total and leave
`time = n % 25`; so `time` is in `[0, 25)`, it is `0` again exactly at the
multiples of 25, in particular after 25 calls, and it is `5` after 30 calls. -/
theorem animation_cursor (d : Driver) (w h : Int) :
    ∃ b s1, setupGraphics d w h State.init = .ok (b, s1) ∧
      (∀ n, ∃ s2, frames d n s1 = .ok s2 ∧ s2.time = ((n % 25 : Nat) : Int) ∧
        (0 ≤ s2.time ∧ s2.time < 25) ∧ (s2.time = 0 ↔ 25 ∣ n) ∧
        List.countP Cmd.isBlit (issued s1 s2) = n) ∧
      (∃ s2, frames d 25 s1 = .ok s2 ∧ s2.time = 0) ∧
      (∃ s2, frames d 30 s1 = .ok s2 ∧ s2.time = 5) := by
  have key : ∀ s1 : State, s1.time = 0 →
      (∀ n, ∃ s2, frames d n s1 = .ok s2 ∧ s2.time = ((n % 25 : Nat) : Int) ∧
        (0 ≤ s2.time ∧ s2.time < 25) ∧ (s2.time = 0 ↔ 25 ∣ n) ∧
        List.countP Cmd.isBlit (issued s1 s2) = n) ∧
      (∃ s2, frames d 25 s1 = .ok s2 ∧ s2.time = 0) ∧
      (∃ s2, frames d 30 s1 = .ok s2 ∧ s2.time = 5) := by
    intro s1 h0
    refine ⟨?_, ?_, ?_⟩
    · intro n
      obtain ⟨s2, hrun, htime, hblit⟩ := frames_cursor d s1 h0 n
      refine ⟨s2, hrun, htime, ?_, ?_, hblit⟩
      · rw [htime]; omega
      · rw [htime]; omega
    · obtain ⟨s2, hrun, htime, _⟩ := frames_cursor d s1 h0 25
      exact ⟨s2, hrun, by rw [htime]; rfl⟩
    · obtain ⟨s2, hrun, htime, _⟩ := frames_cursor d s1 h0 30
      exact ⟨s2, hrun, by rw [htime]; rfl⟩
  rw [setupGraphics_eq]
  by_cases hp : programHandle d State.init.tick = 0
  · rw [if_pos hp]
    exact ⟨false, _, rfl, key _ rfl⟩
  · rw [if_neg hp]
    exact ⟨true, _, rfl, key _ rfl⟩

/-- C6 (as amended): with `grey` in binary32 arithmetic and starting at `0.0f`,
the `n` frames of a run all return, and the value passed to `glClearColor` on
frame `k` (counting from 1) is the result of `k % 1001` additions of `0.001f` to
`0.0f`; `grey` holds the result of `n % 1001` additions afterwards.  Up to 1000
additions each addition gives a larger value that is at most 1 and lies within
`1 / 100000` of `m / 1000`; the value after 1000 additions is below 1 and the
next addition exceeds 1, so the value wraps to `0.0f` on frame 1001 and on no
earlier frame, and the sequence repeats with period 1001. -/
theorem clear_value (d : Driver) (s : State) (hg : s.grey = ⟨0⟩)
    (ht : 0 ≤ s.time ∧ s.time < 25) (n : Nat) :
    ∃ s', frames d n s = .ok s' ∧
      s'.grey = greyAt (n % 1001) ∧
      clearReds (issued s s') = (List.range n).map (fun k => greyAt ((k + 1) % 1001)) ∧
      (greyAt 0).toRat = 0 ∧
      (∀ m, m < 1000 →
        greyAt (m + 1) = (greyAt m).add (F32.lit 1 1000) ∧
        (greyAt m).toRat < (greyAt (m + 1)).toRat ∧ (greyAt (m + 1)).toRat ≤ 1 ∧
        |(greyAt (m + 1)).toRat - ((m + 1 : Nat) : ℚ) / 1000| ≤ 1 / 100000) ∧
      (greyAt 1000).toRat < 1 ∧ 1 < ((greyAt 1000).add (F32.lit 1 1000)).toRat := by
  refine ⟨_, frames_eq d s ht n, iterate_grey d s hg n, ?_, ?_, ?_, greyAt_values.1, ?_⟩
  · rw [issued_append _ _ _ (iterate_trace d s n), framesCalls_clearReds d s hg n]
  · rw [greyAt_units, F32.toRat_nat]
    simp
  · intro m hm
    refine ⟨greyAt_succ m, F32.toRat_lt _ _ (greyAt_step m hm).1, ?_, greyAt_close m hm⟩
    rw [← F32.toRat_one]
    rcases lt_or_eq_of_le (not_lt.mp (greyAt_step m hm).2) with h | h
    · exact le_of_lt (F32.toRat_lt _ _ h)
    · unfold F32.toRat
      rw [h]
  · rw [← F32.toRat_one]
    exact F32.toRat_lt _ _ greyAt_wrap

/-- Witness for C6 (as amended): three frames from program start. -/
theorem clear_value_witness :
    ∃ s', frames okDriver 3 State.init = .ok s' ∧
      s'.grey = greyAt (3 % 1001) ∧
      clearReds (issued State.init s')
        = (List.range 3).map (fun k => greyAt ((k + 1) % 1001)) :=
  have h := clear_value okDriver State.init rfl (by decide) 3
  h.elim fun s' hs => ⟨s', hs.1, hs.2.1, hs.2.2.1⟩

/-- C6 fails as stated: on the first frame from program start the value passed to
`glClearColor` is `0.001f`, which is `8589935 / 2 ^ 33` and not `1 / 1000`. -/
theorem clear_value_first_frame :
    ∃ s', frames okDriver 1 State.init = .ok s' ∧
      clearReds (issued State.init s') = [F32.lit 1 1000] ∧
      (F32.lit 1 1000).toRat = 8589935 / 2 ^ 33 ∧ (F32.lit 1 1000).toRat ≠ 1 / 1000 := by
  refine ⟨_, frames_eq okDriver State.init (by decide) 1, ?_, greyAt_values.2.2.1,
    greyAt_values.2.2.2⟩
  rw [issued_append _ _ _ (iterate_trace okDriver State.init 1),
    framesCalls_clearReds okDriver State.init rfl 1, ← greyAt_values.2.1]
  rfl

/-! ## Properties of program and render-target setup -/

/-- C3 fails as stated: on a driver that reports the framebuffer incomplete, the
first call of `SetupFramebuffer` from program start returns `false` and the
second call, with the same texture, returns `true`. -/
theorem SetupFramebuffer_verdict_changes :
    (SetupFramebuffer incompleteDriver 7 tw th State.init).1 = false ∧
    (SetupFramebuffer incompleteDriver 7 tw th
      (SetupFramebuffer incompleteDriver 7 tw th State.init).2).1 = true := by
  constructor
  · rw [SetupFramebuffer_eq]; simp [State.init, incompleteDriver]
  · rw [SetupFramebuffer_eq, SetupFramebuffer_eq]
    simp [State.init, incompleteDriver, okDriver]

/-- C3 (as amended): when `glGenFramebuffers` yields a non-zero name, two calls of
`SetupFramebuffer` in a row with the same texture generate at most one
framebuffer object and attach at most once: the second call makes no call at all,
leaves the state as it is and returns `true`.  It repeats the verdict of the
first call exactly when that was `true`, which is when `fb` existed before or the
framebuffer was reported complete. -/
theorem SetupFramebuffer_twice (d : Driver) (tex : Nat) (w h : Int) (s : State)
    (hname : d.framebufferName s.tick ≠ 0) :
    (SetupFramebuffer d tex w h (SetupFramebuffer d tex w h s).2).2
        = (SetupFramebuffer d tex w h s).2 ∧
    issued (SetupFramebuffer d tex w h s).2
        (SetupFramebuffer d tex w h (SetupFramebuffer d tex w h s).2).2 = [] ∧
    (SetupFramebuffer d tex w h (SetupFramebuffer d tex w h s).2).1 = true ∧
    List.countP Cmd.isGenFramebuffers
        (issued s (SetupFramebuffer d tex w h (SetupFramebuffer d tex w h s).2).2) ≤ 1 ∧
    List.countP Cmd.isAttach
        (issued s (SetupFramebuffer d tex w h (SetupFramebuffer d tex w h s).2).2) ≤ 1 ∧
    ((SetupFramebuffer d tex w h (SetupFramebuffer d tex w h s).2).1
        = (SetupFramebuffer d tex w h s).1 ↔
      (s.fb ≠ 0 ∨ d.framebufferStatus (s.tick + 1) = GL_FRAMEBUFFER_COMPLETE)) := by
  have hfb : (SetupFramebuffer d tex w h s).2.fb ≠ 0 := by
    rw [SetupFramebuffer_eq]
    by_cases h0 : s.fb = 0
    · simpa [h0] using hname
    · simp [h0]
  have h2 : SetupFramebuffer d tex w h (SetupFramebuffer d tex w h s).2
      = (true, (SetupFramebuffer d tex w h s).2) := by
    rw [SetupFramebuffer_eq d tex w h (SetupFramebuffer d tex w h s).2, if_neg hfb]
  rw [h2]
  refine ⟨rfl, by simp [issued], rfl, ?_, ?_, ?_⟩
  · rw [SetupFramebuffer_eq]
    by_cases h0 : s.fb = 0
    · by_cases hst : d.framebufferStatus (s.tick + 1) = GL_FRAMEBUFFER_COMPLETE <;>
        simp [h0, hst, issued, framebufferCalls, List.countP_cons, Cmd.isGenFramebuffers]
    · simp [h0, issued]
  · rw [SetupFramebuffer_eq]
    by_cases h0 : s.fb = 0
    · by_cases hst : d.framebufferStatus (s.tick + 1) = GL_FRAMEBUFFER_COMPLETE <;>
        simp [h0, hst, issued, framebufferCalls, List.countP_cons, Cmd.isAttach]
    · simp [h0, issued]
  · rw [SetupFramebuffer_eq]
    by_cases h0 : s.fb = 0
    · by_cases hst : d.framebufferStatus (s.tick + 1) = GL_FRAMEBUFFER_COMPLETE <;>
        simp [h0, hst]
    · simp [h0]

/-- Witness for C3 (as amended): the incomplete-framebuffer driver at program
start. -/
theorem SetupFramebuffer_twice_witness :
    (SetupFramebuffer incompleteDriver 7 tw th
        (SetupFramebuffer incompleteDriver 7 tw th State.init).2).1 = true ∧
    ¬ ((SetupFramebuffer incompleteDriver 7 tw th
        (SetupFramebuffer incompleteDriver 7 tw th State.init).2).1
        = (SetupFramebuffer incompleteDriver 7 tw th State.init).1) := by
  have h := SetupFramebuffer_twice incompleteDriver 7 tw th State.init (by decide)
  refine ⟨h.2.2.1, ?_⟩
  rw [h.2.2.2.2.2]
  decide

/-- C5: `setupGraphics` always returns, and what it returns is `false` exactly
when `createProgram` returned 0, for every driver and so whatever
`glCheckFramebufferStatus` answers.  On the `false` path it generates no texture
and no framebuffer object; otherwise it generates 26 textures and, when none
exists yet, one framebuffer object.  The line "Incomplete frame buffer object!",
which `SetupFramebuffer` logs when it returns `false`, only occurs in runs in
which `setupGraphics` returns `true`. -/
theorem setupGraphics_reports (d : Driver) (w h : Int) (s : State) :
    ∃ s', setupGraphics d w h s
        = .ok (decide ((createProgram d (setupGraphicsEntry w h s)).1 ≠ 0), s') ∧
      s'.gProgram = (createProgram d (setupGraphicsEntry w h s)).1 ∧
      List.countP Cmd.isGenTextures (issued s s')
        = (if (createProgram d (setupGraphicsEntry w h s)).1 = 0 then 0 else 26) ∧
      List.countP Cmd.isGenFramebuffers (issued s s')
        = (if (createProgram d (setupGraphicsEntry w h s)).1 = 0 then 0
           else if s.fb = 0 then 1 else 0) ∧
      (Cmd.log .error "Incomplete frame buffer object!" ∈ issued s s' →
        (createProgram d (setupGraphicsEntry w h s)).1 ≠ 0) := by
  have hprog : (createProgram d (setupGraphicsEntry w h s)).1 = programHandle d s.tick := by
    rw [createProgram_fst, setupGraphicsEntry_eq]
  rw [hprog, setupGraphics_eq]
  by_cases hp : programHandle d s.tick = 0
  · rw [if_pos hp]
    refine ⟨setupFailed d w h s, by simp [hp], by simp [setupFailed, hp], ?_, ?_, ?_⟩
    · rw [issued_append s (setupFailed d w h s) _ rfl, if_pos hp]
      simp [List.countP_append, List.countP_cons, Cmd.isGenTextures, entryCalls,
        programCalls_countP]
    · rw [issued_append s (setupFailed d w h s) _ rfl, if_pos hp]
      simp [List.countP_append, List.countP_cons, Cmd.isGenFramebuffers, entryCalls,
        programCalls_countP]
    · rw [issued_append s (setupFailed d w h s) _ rfl]
      intro hmem
      exfalso
      by_cases hst : GL_FALSE = d.linkStatus (s.tick + 3) <;>
        simp [entryCalls, programCalls, hst] at hmem
  · rw [if_neg hp]
    refine ⟨setupDone d w h s, by simp [hp], by simp [setupDone], ?_, ?_, fun _ => hp⟩
    · rw [issued_append s (setupDone d w h s) _ rfl, if_neg hp, setupCalls_isGenTextures]
    · rw [issued_append s (setupDone d w h s) _ rfl, if_neg hp, setupCalls_isGenFramebuffers]

/-- Witness for C5: on the driver that reports every framebuffer incomplete,
`setupGraphics` at program start returns `true` and the run contains the line
logged by the failing `SetupFramebuffer`. -/
theorem setupGraphics_reports_witness :
    ∃ s', setupGraphics incompleteDriver 256 256 State.init = .ok (true, s') ∧
      Cmd.log .error "Incomplete frame buffer object!" ∈ issued State.init s' := by
  obtain ⟨s', hrun, _, _, _, _⟩ := setupGraphics_reports incompleteDriver 256 256 State.init
  have hprog : (createProgram incompleteDriver (setupGraphicsEntry 256 256 State.init)).1 ≠ 0 := by
    rw [createProgram_fst]
    simp [programHandle, incompleteDriver, okDriver]
  have hdone := setupGraphics_eq incompleteDriver 256 256 State.init
  rw [createProgram_fst, setupGraphicsEntry_eq] at hprog
  rw [if_neg hprog, hrun] at hdone
  simp only [Except.ok.injEq, Prod.mk.injEq] at hdone
  refine ⟨s', ?_, ?_⟩
  · rw [hrun, hdone.1]
  · have hmem : Cmd.log .error "Incomplete frame buffer object!"
        ∈ setupCalls incompleteDriver 256 256 State.init := by
      simp [setupCalls, framebufferCalls, State.init, incompleteDriver]
    rw [hdone.2, issued_append State.init (setupDone incompleteDriver 256 256 State.init) _ rfl]
    exact hmem

/-- C7: from a state in which `fb` exists, every sequence of `setupGraphics`,
`SetupFramebuffer` and `renderFrame` calls runs to its end, keeps the value of
`fb`, makes no `glGenFramebuffers` call and no `glFramebufferTexture2D` call on
`GL_COLOR_ATTACHMENT0`, and leaves the texture attached to colour attachment 0 of
`fb` as it was; `time` is a valid index again at the end.  One `renderFrame` in
such a state creates no GPU object, makes one `glFramebufferTexture2D` call, and
the only attachment it changes is colour attachment 1 of `fb`, which becomes
`aniTex[time]`. -/
theorem render_target_fixed (d : Driver) (calls : List Call) (s : State) (hfb : s.fb ≠ 0)
    (ht : 0 ≤ s.time ∧ s.time < 25) :
    (∃ s', runCalls d calls s = .ok s' ∧ s'.fb = s.fb ∧ (0 ≤ s'.time ∧ s'.time < 25) ∧
      List.countP Cmd.isGenFramebuffers (issued s s') = 0 ∧
      List.countP Cmd.isAttachColor0 (issued s s') = 0 ∧
      (gpuAfter s'.trace).attached s.fb GL_COLOR_ATTACHMENT0
        = (gpuAfter s.trace).attached s.fb GL_COLOR_ATTACHMENT0) ∧
    (∃ s', renderFrame d s = .ok s' ∧ created (issued s s') = [] ∧
      List.countP Cmd.isAttach (issued s s') = 1 ∧
      (gpuAfter s'.trace).attached
        = fun f a => if f = s.fb ∧ a = GL_COLOR_ATTACHMENT1 then s.aniTex s.time.toNat
            else (gpuAfter s.trace).attached f a) := by
  constructor
  · obtain ⟨s', new, hrun, htr, hfb', ht', hg, ha, he⟩ := runCalls_spec d calls s hfb ht
    refine ⟨s', hrun, hfb', ht', ?_, ?_, ?_⟩
    · rw [issued_append s s' new htr, hg]
    · rw [issued_append s s' new htr, ha]
    · rw [htr, gpuAfter_append, he]
  · rw [renderFrame_eq, if_pos ht]
    refine ⟨_, rfl, ?_, ?_, ?_⟩
    · rw [issued_append s (renderDone d s) _ rfl, renderCalls_created]
    · rw [issued_append s (renderDone d s) _ rfl, renderCalls_isAttach]
    · have : (renderDone d s).trace = s.trace ++ renderCalls d s := rfl
      rw [this, gpuAfter_append, renderCalls_exec]
      funext f a
      simp [hfb]

/-- Witness for C7: a state with `fb = 1` and the sequence `setupGraphics`,
`renderFrame`, `SetupFramebuffer`, `renderFrame`. -/
theorem render_target_fixed_witness :
    ∃ s', runCalls okDriver
        [.setupGraphics 256 256, .renderFrame, .SetupFramebuffer 9 240 240, .renderFrame]
        { State.init with fb := 1 } = .ok s' ∧ s'.fb = 1 ∧
      List.countP Cmd.isGenFramebuffers (issued { State.init with fb := 1 } s') = 0 :=
  have h := (render_target_fixed okDriver
    [.setupGraphics 256 256, .renderFrame, .SetupFramebuffer 9 240 240, .renderFrame]
    { State.init with fb := 1 } (by decide) (by decide)).1
  h.elim fun s' hs => ⟨s', hs.1, hs.2.1, hs.2.2.2.1⟩

/-! ## Properties of the textures -/

end GlCode
